import Mathlib

/-!
Verification of the TrueTrend diabetes analytics core against its
natural-language specification.

Shallow embedding conventions:
* Timestamps are rational numbers of minutes since an arbitrary epoch
  (`datetime` arithmetic in the source is exact, `timedelta(minutes=m)`
  becomes `+ m`, and `(t1 - t2).total_seconds() / 60` becomes `t1 - t2`).
* Python floats are modelled as exact rationals.
* `round(x, 1)` (Python round-half-to-even at one decimal) is `round1`,
  `int(x)` (truncation toward zero) is `truncToInt`.
* Python dicts built in insertion order are modelled as association lists
  with insertion-order update (`addToGroup`).
-/

set_option autoImplicit false

/-- Truncation toward zero, Python `int(x)`. -/
def truncToInt (q : ℚ) : ℤ :=
  if 0 ≤ q then ⌊q⌋ else -⌊-q⌋

/-- Round to the nearest integer, ties to even: Python `round(x)`. -/
def roundHalfEven (q : ℚ) : ℤ :=
  if q - ⌊q⌋ < 1/2 then ⌊q⌋
  else if 1/2 < q - ⌊q⌋ then ⌊q⌋ + 1
  else if ⌊q⌋ % 2 = 0 then ⌊q⌋ else ⌊q⌋ + 1

/-- Round to one decimal place, Python `round(x, 1)`. -/
def round1 (q : ℚ) : ℚ :=
  (roundHalfEven (q * 10) : ℚ) / 10

/-- Format a nonnegative rational with one decimal digit, Python `f"{x:.1f}"`
(only ever applied to nonnegative spans in the embedded code). -/
def fmt1 (q : ℚ) : String :=
  let n := roundHalfEven (q * 10)
  toString (n / 10) ++ "." ++ toString (n % 10)

/-- Python `max` over a list with a default for the empty list
(`max(xs, default=d)`). -/
def listMaxD (d : ℚ) : List ℚ → ℚ
  | [] => d
  | x :: xs => xs.foldl max x

/-- One iteration of a Python loop that either appends one element to an
accumulator list or `continue`s. -/
def appendStep {β : Type} (acc : List β) (o : Option β) : List β :=
  match o with
  | some b => acc ++ [b]
  | none => acc

/-- One iteration of a Python loop that either updates an accumulator or
`continue`s. -/
def optStep {β γ : Type} (step : γ → β → γ) (g : γ) (o : Option β) : γ :=
  match o with
  | some b => step g b
  | none => g

/-! ## Event model (app/models/data_models.py)

Presentational fields that no claim touches (device tags, trend arrows,
patient ids, report strings) are omitted from the embedding. -/

/-- `GlucoseReading`: a timestamped glucose value in mg/dL. -/
structure GlucoseReading where
  timestamp : ℚ
  glucose_value : ℚ
deriving DecidableEq

/-- `InsulinEvent`: a timestamped insulin dose; `insulin_type` is
normalised to "bolus" or "basal" by the pydantic validator. -/
structure InsulinEvent where
  timestamp : ℚ
  insulin_type : String
  units : ℚ
deriving DecidableEq

/-- `CarbEvent`: a timestamped carbohydrate intake in grams. -/
structure CarbEvent where
  timestamp : ℚ
  carbs : ℚ
deriving DecidableEq

/-- `PatientData`: the event bundle handed to the analytics engine. -/
structure PatientData where
  glucose_readings : List GlucoseReading
  insulin_events : List InsulinEvent
  carb_events : List CarbEvent
deriving DecidableEq

/-! ## Clinical rule threshold settings (app/core/config.py) -/

def postprandial_threshold : ℚ := 180

def postprandial_window : ℚ := 120

def mistimed_bolus_threshold : ℚ := 160

def mistimed_bolus_delay : ℚ := 10

/-! ## Temporal correlation

The spec's Temporal Correlator (`windowed`): select every target event whose
timestamp lies in the inclusive window around the anchor. The source inlines
this filter in each rule (analytics_engine.py lines 61-64, 126-129, 263-266);
`windowedCorrelation` is the common form, and the inlined instances are
proved equal to it. -/

/-- The Temporal Correlator of spec section 4.2: all stream events with
timestamp in `[anchor + afterMin, anchor + beforeMin]`, inclusive. -/
def windowedCorrelation (anchor afterMin beforeMin : ℚ)
    (stream : List GlucoseReading) : List GlucoseReading :=
  stream.filter (fun g =>
    decide (anchor + afterMin ≤ g.timestamp ∧ g.timestamp ≤ anchor + beforeMin))

/-- Postprandial window filter inlined in `_detect_postprandial_hyperglycemia`
(lines 61-64) and `_group_similar_meals` (lines 263-266):
readings with `meal_time <= ts <= meal_time + 120 minutes`. -/
def postprandialReadings (meal_time : ℚ) (readings : List GlucoseReading) :
    List GlucoseReading :=
  readings.filter (fun r =>
    decide (meal_time ≤ r.timestamp ∧ r.timestamp ≤ meal_time + postprandial_window))

/-- Post-bolus window filter inlined in `_detect_mistimed_bolus`
(lines 126-129): readings with `bolus_ts <= ts <= bolus_ts + 120 minutes`. -/
def postBolusReadings (bolus_ts : ℚ) (readings : List GlucoseReading) :
    List GlucoseReading :=
  readings.filter (fun r =>
    decide (bolus_ts ≤ r.timestamp ∧ r.timestamp ≤ bolus_ts + 120))

/-! ## Evidence records and findings

Each Python evidence dict becomes a typed record. Presentational fields of
`AnalyticsResult` (description, clinical_significance) are constant strings
that no claim touches; they are omitted. -/

/-- One evidence record of the carb-ratio rule (`meal_details` entry). -/
structure MealDetail where
  meal_time : ℚ
  carbs : ℚ
  insulin_units : ℚ
  max_glucose : ℚ
  estimated_ratio : Option ℚ
deriving DecidableEq

/-- One evidence record of the carb-ratio rule (per qualifying bucket). -/
structure BucketEvidence where
  carb_range : String
  total_meals : ℕ
  problematic_meals : ℕ
  meal_details : List MealDetail
deriving DecidableEq

/-- An evidence entry of an `AnalyticsResult`, one constructor per rule. -/
inductive Evidence where
  | postprandial (meal_time : ℚ) (max_glucose : ℚ) (carbs : Option ℚ)
      (peak_time_minutes : ℤ)
  | mistimed (meal_time bolus_time delay_minutes max_glucose carbs
      insulin_units : ℚ)
  | bucket (b : BucketEvidence)
deriving DecidableEq

/-- `AnalyticsResult`: one clinical finding. -/
structure AnalyticsResult where
  rule_name : String
  severity : String
  count : ℕ
  evidence : List Evidence
deriving DecidableEq

/-! ## Rule R1: postprandial hyperglycemia
(`_detect_postprandial_hyperglycemia`, analytics_engine.py lines 48-98) -/

/-- `_find_peak_time` (lines 214-220): minutes from the meal to the first
reading attaining the maximal glucose value (`max(readings, key=...)` keeps
the first maximal element), truncated to an integer. -/
def maxByGlucose (r : GlucoseReading) : List GlucoseReading → GlucoseReading
  | [] => r
  | x :: xs => if r.glucose_value < x.glucose_value then maxByGlucose x xs
               else maxByGlucose r xs

/-- `_find_peak_time`: 0 on an empty list, else minutes to the peak reading. -/
def find_peak_time (meal_time : ℚ) (readings : List GlucoseReading) : ℤ :=
  match readings with
  | [] => 0
  | r :: rest => truncToInt ((maxByGlucose r rest).timestamp - meal_time)

/-- `_calculate_severity` (lines 222-240): frequency-based severity. -/
def calculate_severity (numEvents total : ℕ) (rule_type : String) : String :=
  if numEvents = 0 ∨ total = 0 then "low"
  else
    let frequency : ℚ := (numEvents : ℚ) / (total : ℚ)
    if rule_type = "postprandial" then
      if 1/2 ≤ frequency then "high"
      else if 3/10 ≤ frequency then "medium"
      else "low"
    else if rule_type = "mistimed" then
      if 3/10 ≤ frequency then "high"
      else if 1/5 ≤ frequency then "medium"
      else "low"
    else "low"

/-- Loop body of R1 for one meal time (lines 59-83): `None` encodes Python's
`continue` (empty window, or no spike above the threshold). -/
def r1Step (data : PatientData) (meal_time : ℚ) : Option Evidence :=
  match postprandialReadings meal_time data.glucose_readings with
  | [] => none
  | r :: rest =>
    let max_glucose := (rest.map (·.glucose_value)).foldl max r.glucose_value
    if postprandial_threshold < max_glucose then
      some (.postprandial meal_time max_glucose
        ((data.carb_events.find? (fun e => decide (e.timestamp = meal_time))).map
          (·.carbs))
        (find_peak_time meal_time (r :: rest)))
    else none

/-- `_detect_postprandial_hyperglycemia` (lines 48-98). The Python loop
appends one evidence dict per qualifying meal time. -/
def detect_postprandial (data : PatientData) : Option AnalyticsResult :=
  let meal_times := data.carb_events.map (·.timestamp)
  let events := meal_times.foldl
    (fun acc mt => appendStep acc (r1Step data mt)) []
  if events.isEmpty then none
  else some { rule_name := "postprandial_hyperglycemia",
              severity := calculate_severity events.length meal_times.length
                "postprandial",
              count := events.length,
              evidence := events }

/-! ## Rule R2: mistimed bolus
(`_detect_mistimed_bolus`, analytics_engine.py lines 100-159) -/

/-- Delayed-bolus filter of lines 114-119: bolus insulin strictly after the
meal, at most 60 minutes after it, with a delay above the threshold. -/
def delayedBoluses (data : PatientData) (meal_time : ℚ) : List InsulinEvent :=
  data.insulin_events.filter (fun i =>
    i.insulin_type == "bolus" &&
    decide (meal_time < i.timestamp) &&
    decide (i.timestamp ≤ meal_time + 60) &&
    decide (mistimed_bolus_delay < i.timestamp - meal_time))

/-- Inner loop body of R2 for one delayed bolus (lines 125-145). -/
def r2Step (data : PatientData) (carb : CarbEvent) (bolus : InsulinEvent) :
    Option Evidence :=
  match postBolusReadings bolus.timestamp data.glucose_readings with
  | [] => none
  | r :: rest =>
    let max_glucose := (rest.map (·.glucose_value)).foldl max r.glucose_value
    if mistimed_bolus_threshold < max_glucose then
      some (.mistimed carb.timestamp bolus.timestamp
        (round1 (bolus.timestamp - carb.timestamp)) max_glucose carb.carbs
        bolus.units)
    else none

/-- `_detect_mistimed_bolus` (lines 100-159). The `if not delayed_boluses:
continue` of the source is semantically an empty inner loop. -/
def detect_mistimed (data : PatientData) : Option AnalyticsResult :=
  let events := data.carb_events.foldl (fun acc ce =>
    (delayedBoluses data ce.timestamp).foldl
      (fun acc2 b => appendStep acc2 (r2Step data ce b)) acc) []
  if events.isEmpty then none
  else some { rule_name := "mistimed_bolus",
              severity := calculate_severity events.length
                data.carb_events.length "mistimed",
              count := events.length,
              evidence := events }

/-! ## Rule R3: carb-ratio mismatch
(`_detect_carb_ratio_mismatch` lines 161-212 and `_group_similar_meals`
lines 242-286) -/

/-- One grouped meal of `_group_similar_meals`. -/
structure Meal where
  meal_time : ℚ
  carbs : ℚ
  insulin_units : ℚ
  max_postprandial_glucose : ℚ
deriving DecidableEq

/-- Lower bound of the 20-gram carb bucket: `int(carbs // 20) * 20`. -/
def bucketLB (carbs : ℚ) : ℤ := ⌊carbs / 20⌋ * 20

/-- The dict key `f"{lb}-{lb+19}g"`. Distinct lower bounds give distinct
strings, so the embedding keys buckets by the lower bound itself and keeps
the string only as evidence. -/
def carbRangeStr (lb : ℤ) : String :=
  toString lb ++ "-" ++ toString (lb + 19) ++ "g"

/-- First bolus within plus or minus 30 minutes of the meal (lines 252-257):
`abs(total_seconds) <= 1800`. -/
def findBolus (ins : List InsulinEvent) (meal_time : ℚ) : Option InsulinEvent :=
  ins.find? (fun i =>
    i.insulin_type == "bolus" && decide (|i.timestamp - meal_time| ≤ 30))

/-- The grouped-meal dict value built at lines 279-284; the max postprandial
glucose uses `max(..., default=0)`. -/
def mkMeal (ce : CarbEvent) (b : InsulinEvent) (rs : List GlucoseReading) :
    Meal :=
  { meal_time := ce.timestamp,
    carbs := ce.carbs,
    insulin_units := b.units,
    max_postprandial_glucose :=
      listMaxD 0 ((postprandialReadings ce.timestamp rs).map (·.glucose_value)) }

/-- Python-dict update in insertion order: append the meal to the existing
bucket entry, or add a new bucket at the end. -/
def addToGroup (groups : List (ℤ × List Meal)) (k : ℤ) (m : Meal) :
    List (ℤ × List Meal) :=
  match groups with
  | [] => [(k, [m])]
  | (k1, ms) :: rest =>
    if k1 = k then (k1, ms ++ [m]) :: rest
    else (k1, ms) :: addToGroup rest k m

/-- `_group_similar_meals` (lines 242-286): carb events with no associated
bolus are skipped; the rest are grouped by carb bucket in insertion order. -/
def group_similar_meals (cs : List CarbEvent) (ins : List InsulinEvent)
    (rs : List GlucoseReading) : List (ℤ × List Meal) :=
  cs.foldl (fun groups ce =>
    optStep (fun g p => addToGroup g p.1 p.2) groups
      ((findBolus ins ce.timestamp).map
        (fun b => (bucketLB ce.carbs, mkMeal ce b rs)))) []

/-- The meal-details dict of lines 183-189; the estimated ratio is rounded
to one decimal and `None` unless the units are positive. -/
def mealDetail (m : Meal) : MealDetail :=
  { meal_time := m.meal_time,
    carbs := m.carbs,
    insulin_units := m.insulin_units,
    max_glucose := m.max_postprandial_glucose,
    estimated_ratio :=
      if 0 < m.insulin_units then some (round1 (m.carbs / m.insulin_units))
      else none }

/-- Loop body of R3 for one bucket (lines 171-198): buckets with fewer than
3 meals are skipped, then one evidence record is emitted when at least 3
meals are hyperglycemic. -/
def r3Step (entry : ℤ × List Meal) : Option BucketEvidence :=
  if entry.2.length < 3 then none
  else
    let hyper := entry.2.filter
      (fun m => decide (postprandial_threshold < m.max_postprandial_glucose))
    if 3 ≤ hyper.length then
      some { carb_range := carbRangeStr entry.1,
             total_meals := entry.2.length,
             problematic_meals := hyper.length,
             meal_details := hyper.map mealDetail }
    else none

/-- `_detect_carb_ratio_mismatch` (lines 161-212). -/
def detect_carb_ratio (data : PatientData) : Option AnalyticsResult :=
  let groups := group_similar_meals data.carb_events data.insulin_events
    data.glucose_readings
  let events := groups.foldl
    (fun acc entry => appendStep acc (r3Step entry)) []
  if events.isEmpty then none
  else some { rule_name := "carb_ratio_mismatch",
              severity := if events.any (fun e => 5 ≤ e.problematic_meals)
                then "high" else "medium",
              count := (events.map (·.problematic_meals)).sum,
              evidence := events.map .bucket }

/-! ## The rule engine (`analyze_patient_data`, lines 25-46)

The Python loop runs each registered rule inside its own try/except: a rule
that raises is logged and skipped, a rule returning `None` contributes
nothing, and results are appended in registration order. A rule is embedded
as a function into `Except`, whose `error` branch models a raised
exception. -/

/-- The engine loop: run the rules in order, skipping errors and `none`. -/
def runRules (rules : List (String × (PatientData → Except String (Option AnalyticsResult))))
    (data : PatientData) : List AnalyticsResult :=
  match rules with
  | [] => []
  | (_, f) :: rest =>
    match f data with
    | .ok (some r) => r :: runRules rest data
    | .ok none => runRules rest data
    | .error _ => runRules rest data

/-- The registry built in `__init__` (lines 18-23), in registration order.
The three concrete rules are total functions, so they are lifted with `.ok`. -/
def engineRules : List (String × (PatientData → Except String (Option AnalyticsResult))) :=
  [("postprandial_hyperglycemia", fun d => .ok (detect_postprandial d)),
   ("mistimed_bolus", fun d => .ok (detect_mistimed d)),
   ("carb_ratio_mismatch", fun d => .ok (detect_carb_ratio d))]

/-- `analyze_patient_data` (lines 25-46). -/
def analyze_patient_data (data : PatientData) : List AnalyticsResult :=
  runRules engineRules data

/-! ## The Data Quality Gate (`assess_data_quality`, simple_analyzer.py
lines 85-145)

The reading dicts of `simple_analyzer.py` carry a raw timestamp (possibly
absent) and a validated glucose value; only those two fields reach
`assess_data_quality`. The timestamp is modelled as an optional instant in
minutes. -/

/-- One parsed reading dict handed to `assess_data_quality`. -/
structure SimpleReading where
  timestamp : Option ℚ
  glucose : ℚ
deriving DecidableEq

/-- The dict returned by `assess_data_quality`. The empty-input branch
omits the span and total keys, hence the `Option` fields. -/
structure QualityVerdict where
  quality_score : ℤ
  reliability : String
  warnings : List String
  data_span_hours : Option ℚ
  total_readings : Option ℕ
  usable_for_clinical_decisions : Bool
deriving DecidableEq

/-- Body of `assess_data_quality` for a nonempty stream (lines 95-145):
the code reads only the reading count and the glucose values, which are
made explicit parameters here. The data span is always computed from an
assumed 5-minute cadence (`total_readings * 5 / 60`, line 100); the
warnings and issue tags are appended in source order; the score is
100 minus 15 per issue, clamped to `[0, 100]`. -/
def assess_nonempty (total : ℕ) (glucose_values : List ℚ) : QualityVerdict :=
  let data_hours : ℚ := (total : ℚ) * 5 / 60
  let extreme_low := (glucose_values.filter (fun g => decide (g < 40))).length
  let extreme_high := (glucose_values.filter (fun g => decide (400 < g))).length
  let c1 : Bool := decide (data_hours < 24)
  let c2 : Bool := decide (total < 288)
  let c3 : Bool := decide ((total : ℚ) * (5/100) < (extreme_low : ℚ))
  let c4 : Bool := decide ((total : ℚ) * (5/100) < (extreme_high : ℚ))
  let warnings :=
    (if c1 then ["Limited data span (" ++ fmt1 data_hours ++
      " hours) - insufficient for comprehensive analysis"] else []) ++
    (if c2 then ["Potential data gaps detected"] else []) ++
    (if c3 then ["High frequency of severe hypoglycemia (" ++
      toString extreme_low ++ " readings)"] else []) ++
    (if c4 then ["High frequency of severe hyperglycemia (" ++
      toString extreme_high ++ " readings)"] else [])
  let issues : ℤ := (if c1 then 1 else 0) + (if c2 then 1 else 0) +
    (if c3 then 1 else 0) + (if c4 then 1 else 0)
  let score : ℤ := max 0 (min 100 (100 - 15 * issues))
  let reliability : String :=
    if 80 ≤ score ∧ 24 ≤ data_hours then "HIGH"
    else if 60 ≤ score ∧ 12 ≤ data_hours then "MODERATE"
    else if 40 ≤ score then "LOW"
    else "UNRELIABLE"
  { quality_score := score,
    reliability := reliability,
    warnings := warnings,
    data_span_hours := some (round1 data_hours),
    total_readings := some total,
    usable_for_clinical_decisions :=
      (reliability == "HIGH" || reliability == "MODERATE") &&
        decide (12 ≤ data_hours) }

/-- `assess_data_quality` (lines 85-145): the empty-stream early return,
else the nonempty body on the reading count and glucose values. -/
def assess_data_quality (readings : List SimpleReading) : QualityVerdict :=
  match readings with
  | [] =>
    { quality_score := 0,
      reliability := "UNRELIABLE",
      warnings := ["No valid readings found"],
      data_span_hours := none,
      total_readings := none,
      usable_for_clinical_decisions := false }
  | _ =>
    assess_nonempty readings.length (readings.map (·.glucose))

/-- Follows the spec's words (section 4.1 step 1), for comparison with the
source: the data-span in hours comes from the stream's timestamp range and
falls back to the 5-minute cadence estimate only when no timestamps are
available. -/
def dataSpanHoursSpec (readings : List SimpleReading) : ℚ :=
  match readings.filterMap (·.timestamp) with
  | [] => (readings.length : ℚ) * 5 / 60
  | t :: ts => (ts.foldl max t - ts.foldl min t) / 60

/-- The span the gate works with, per the claim. -/
def qSpan (readings : List SimpleReading) : ℚ :=
  (readings.length : ℚ) * 5 / 60

/-- Fraction of readings below 40 mg/dL. -/
def qLowFrac (readings : List SimpleReading) : ℚ :=
  (((readings.map (·.glucose)).filter (fun g => decide (g < 40))).length : ℚ)
    / (readings.length : ℚ)

/-- Fraction of readings above 400 mg/dL. -/
def qHighFrac (readings : List SimpleReading) : ℚ :=
  (((readings.map (·.glucose)).filter
    (fun g => decide (400 < g))).length : ℚ) / (readings.length : ℚ)

/-- The number of quality issues per the claim: span below 24 h, fewer than
288 readings, low fraction above 5 percent, high fraction above 5
percent. -/
def qIssues (readings : List SimpleReading) : ℤ :=
  (if qSpan readings < 24 then 1 else 0) +
  (if readings.length < 288 then 1 else 0) +
  (if 5/100 < qLowFrac readings then 1 else 0) +
  (if 5/100 < qHighFrac readings then 1 else 0)

/-! ## Variability metrics (`calculate_advanced_metrics`,
simple_analyzer.py lines 248-286)

The code stores `cv = (stdev / mean) * 100` and `gvi` which involve a real
square root; `cv` is irrational in general, so the embedding carries its
square `cv_sq = variance * 100^2 / mean^2` instead (`cv = 0` exactly when
`cv_sq = 0`), and omits `gvi`, which no claim mentions. Percentages and
MAGE are rounded to one decimal exactly as the code does. -/

/-- `statistics.mean`. -/
def listMean (l : List ℚ) : ℚ := l.sum / (l.length : ℚ)

/-- The square of `statistics.stdev` (sample variance, denominator
`n - 1`); meaningful only for lists of length at least 2. -/
def sampleVariance (l : List ℚ) : ℚ :=
  ((l.map (fun x => (x - listMean l) ^ 2)).sum) / ((l.length : ℚ) - 1)

/-- A time-in-range style percentage of the readings. -/
def pctOf (l : List ℚ) (p : ℚ → Bool) : ℚ :=
  ((l.filter p).length : ℚ) / (l.length : ℚ) * 100

/-- The excursion loop of lines 267-270: `for i in range(1, len(values) - 1)`
collects `abs(values[i] - values[i-1])` whenever it exceeds the sample
standard deviation. `d > stdev` with `d = |...| >= 0` is encoded as
`variance < d^2`, which is equivalent because both sides are nonnegative. -/
def mageExcursions (l : List ℚ) (variance : ℚ) : List ℚ :=
  (List.range' 1 (l.length - 2)).filterMap (fun i =>
    match l.get? i, l.get? (i - 1) with
    | some a, some b => if variance < (a - b) ^ 2 then some |a - b| else none
    | _, _ => none)

/-- The unrounded MAGE of lines 267-272. -/
def mageRaw (l : List ℚ) : ℚ :=
  let exc := mageExcursions l (sampleVariance l)
  if exc.isEmpty then 0 else exc.sum / (exc.length : ℚ)

/-- The metrics dict of `calculate_advanced_metrics` (minus `gvi`, with
`cv` carried as its square, see above). -/
structure AdvancedMetrics where
  cv_sq : ℚ
  tir_70_180 : ℚ
  tbr_below_70 : ℚ
  tbr_below_54 : ℚ
  tar_above_180 : ℚ
  tar_above_250 : ℚ
  mage : ℚ
deriving DecidableEq

/-- `calculate_advanced_metrics` (lines 248-286): `{}` (here `none`) for
fewer than 2 values, else the rounded metrics record. -/
def calculate_advanced_metrics (l : List ℚ) : Option AdvancedMetrics :=
  if l.length < 2 then none
  else some
    { cv_sq := sampleVariance l * 10000 / (listMean l) ^ 2,
      tir_70_180 := round1 (pctOf l (fun g => decide (70 ≤ g ∧ g ≤ 180))),
      tbr_below_70 := round1 (pctOf l (fun g => decide (g < 70))),
      tbr_below_54 := round1 (pctOf l (fun g => decide (g < 54))),
      tar_above_180 := round1 (pctOf l (fun g => decide (180 < g))),
      tar_above_250 := round1 (pctOf l (fun g => decide (250 < g))),
      mage := round1 (mageRaw l) }

/-- All consecutive absolute deltas `|x_(i+1) - x_i|` of a sequence. -/
def consecutiveDeltas (l : List ℚ) : List ℚ :=
  List.zipWith (fun a b => |b - a|) l l.tail

/-- Follows the claim's words, for comparison with the source: the mean of
ALL consecutive deltas exceeding one (sample) standard deviation, 0 when
none qualify (`stdev < d` encoded as `variance < d^2` as above). -/
def mageSpecClaim (l : List ℚ) : ℚ :=
  let exc := (consecutiveDeltas l).filter
    (fun d => decide (sampleVariance l < d ^ 2))
  if exc.isEmpty then 0 else exc.sum / (exc.length : ℚ)

/-! ## Claim-facing characterisations

Mathematical (filter/exists/Finset) descriptions of what the rules compute;
the claim theorems relate them to the loop-based code embedding above. -/

/-- A carb event at `mt` qualifies for R1: some reading in the inclusive
2-hour postprandial window exceeds 180 mg/dL. -/
def r1Qualifies (data : PatientData) (mt : ℚ) : Prop :=
  ∃ g ∈ data.glucose_readings,
    mt ≤ g.timestamp ∧ g.timestamp ≤ mt + 120 ∧ 180 < g.glucose_value

instance (data : PatientData) (mt : ℚ) : Decidable (r1Qualifies data mt) :=
  List.decidableBEx _ data.glucose_readings

/-- Number of carb events qualifying for R1. -/
def r1QualCount (data : PatientData) : ℕ :=
  data.carb_events.countP (fun ce => decide (r1Qualifies data ce.timestamp))

/-- R1 severity per the claim: frequency thresholds 0.5 and 0.3. -/
def r1Severity (c total : ℕ) : String :=
  if 1/2 ≤ (c : ℚ) / (total : ℚ) then "high"
  else if 3/10 ≤ (c : ℚ) / (total : ℚ) then "medium"
  else "low"

/-- A (meal, bolus) pair qualifies for R2: bolus insulin in the half-open
window `(T, T+60]` with delay above 10 minutes, followed by a reading above
160 mg/dL within the inclusive 2-hour post-bolus window. -/
def r2Qualifies (data : PatientData) (ce : CarbEvent) (b : InsulinEvent) :
    Prop :=
  b.insulin_type = "bolus" ∧ ce.timestamp < b.timestamp ∧
  b.timestamp ≤ ce.timestamp + 60 ∧ 10 < b.timestamp - ce.timestamp ∧
  ∃ g ∈ data.glucose_readings,
    b.timestamp ≤ g.timestamp ∧ g.timestamp ≤ b.timestamp + 120 ∧
    160 < g.glucose_value

instance (data : PatientData) (ce : CarbEvent) (b : InsulinEvent) :
    Decidable (r2Qualifies data ce b) := by
  unfold r2Qualifies; infer_instance

/-- Number of qualifying (meal, bolus) pairs for R2. -/
def r2QualCount (data : PatientData) : ℕ :=
  (data.carb_events.map (fun ce =>
    data.insulin_events.countP (fun b => decide (r2Qualifies data ce b)))).sum

/-- R2 severity per the claim: frequency thresholds 0.3 and 0.2. -/
def r2Severity (c total : ℕ) : String :=
  if 3/10 ≤ (c : ℚ) / (total : ℚ) then "high"
  else if 1/5 ≤ (c : ℚ) / (total : ℚ) then "medium"
  else "low"

/-- The (bucket key, meal) pairs of R3: each carb event paired with its
first bolus within 30 minutes; events without one are dropped. -/
def r3Assoc (data : PatientData) : List (ℤ × Meal) :=
  data.carb_events.filterMap (fun ce =>
    (findBolus data.insulin_events ce.timestamp).map
      (fun b => (bucketLB ce.carbs, mkMeal ce b data.glucose_readings)))

/-- The set of occupied bucket keys. -/
def r3Keys (data : PatientData) : Finset ℤ :=
  ((r3Assoc data).map Prod.fst).toFinset

/-- The meals of one bucket, in stream order. -/
def r3Meals (data : PatientData) (k : ℤ) : List Meal :=
  ((r3Assoc data).filter (fun p => decide (p.1 = k))).map Prod.snd

/-- The problematic meals of one bucket: max postprandial glucose above
180 mg/dL. -/
def r3ProbCount (data : PatientData) (k : ℤ) : ℕ :=
  (r3Meals data k).countP (fun m => decide (180 < m.max_postprandial_glucose))

/-- A bucket qualifies: at least 3 meals and at least 3 problematic. -/
def r3Qual (data : PatientData) (k : ℤ) : Prop :=
  3 ≤ (r3Meals data k).length ∧ 3 ≤ r3ProbCount data k

instance (data : PatientData) (k : ℤ) : Decidable (r3Qual data k) := by
  unfold r3Qual
  infer_instance

/-- The qualifying buckets. -/
def r3QualKeys (data : PatientData) : Finset ℤ :=
  (r3Keys data).filter (fun k => r3Qual data k)

/-- The evidence record the rule emits for one qualifying bucket. -/
def r3Bucket (data : PatientData) (k : ℤ) : BucketEvidence :=
  { carb_range := carbRangeStr k,
    total_meals := (r3Meals data k).length,
    problematic_meals := r3ProbCount data k,
    meal_details :=
      ((r3Meals data k).filter
        (fun m => decide (180 < m.max_postprandial_glucose))).map mealDetail }

/-- The claimed Finding count of R3: problematic meals summed over
qualifying buckets. -/
def r3Count (data : PatientData) : ℕ :=
  Finset.sum (r3QualKeys data) (fun k => r3ProbCount data k)

/-- All meals stored under a key in an association list (the concatenation
is a technical device: for the nodup-keyed lists the fold produces it is
the single entry of the key, or empty). -/
def valuesAt (g : List (ℤ × List Meal)) (k : ℤ) : List Meal :=
  ((g.filter (fun e => decide (e.1 = k))).map Prod.snd).flatten

/-- The invariant tying the insertion-order dict to the flat pair list it
was built from: keys are distinct, key membership agrees, and each key
holds exactly the pairs carrying it, in order. -/
def GroupsOf (ps : List (ℤ × Meal)) (g : List (ℤ × List Meal)) : Prop :=
  (g.map Prod.fst).Nodup ∧
  (∀ k, k ∈ g.map Prod.fst ↔ k ∈ ps.map Prod.fst) ∧
  (∀ k, valuesAt g k =
    (ps.filter (fun p => decide (p.1 = k))).map Prod.snd)

/-! ## Concrete bundles used by witnesses, instances and counterexamples -/

/-- Spec scenario for R1: one meal at time 0, one reading of 200 mg/dL
half an hour later, nothing else. -/
def c2Data : PatientData :=
  { glucose_readings := [⟨30, 200⟩], insulin_events := [],
    carb_events := [⟨0, 60⟩] }

/-- R1 scenario with a sub-minute peak timestamp (30.5 minutes). -/
def c2CxData : PatientData :=
  { glucose_readings := [⟨61/2, 200⟩], insulin_events := [],
    carb_events := [⟨0, 60⟩] }

/-- Spec scenario for R2: meal at 0, bolus 15 minutes later, reading of
185 mg/dL at 45 minutes. -/
def c3Data : PatientData :=
  { glucose_readings := [⟨45, 185⟩],
    insulin_events := [⟨15, "bolus", 8⟩],
    carb_events := [⟨0, 60⟩] }

/-- R2 scenario with a sub-minute bolus delay (15 minutes 10 seconds). -/
def c3CxData : PatientData :=
  { glucose_readings := [⟨20, 185⟩],
    insulin_events := [⟨91/6, "bolus", 8⟩],
    carb_events := [⟨0, 60⟩] }

/-- Spec scenario for R3: three 50 g meals in the 40-59 g bucket, each with
a bolus at meal time and a 200 mg/dL postprandial reading. -/
def c4Data3 : PatientData :=
  { glucose_readings := [⟨30, 200⟩, ⟨330, 200⟩, ⟨630, 200⟩],
    insulin_events := [⟨0, "bolus", 5⟩, ⟨300, "bolus", 5⟩, ⟨600, "bolus", 5⟩],
    carb_events := [⟨0, 50⟩, ⟨300, 50⟩, ⟨600, 50⟩] }

/-- The same scenario with only two such meals. -/
def c4Data2 : PatientData :=
  { glucose_readings := [⟨30, 200⟩, ⟨330, 200⟩],
    insulin_events := [⟨0, "bolus", 5⟩, ⟨300, "bolus", 5⟩],
    carb_events := [⟨0, 50⟩, ⟨300, 50⟩] }

/-- R3 scenario whose exact carb-to-insulin ratio 50/7 is not representable
at one decimal. -/
def c4CxData : PatientData :=
  { glucose_readings := [⟨30, 200⟩, ⟨330, 200⟩, ⟨630, 200⟩],
    insulin_events := [⟨0, "bolus", 7⟩, ⟨300, "bolus", 7⟩, ⟨600, "bolus", 7⟩],
    carb_events := [⟨0, 50⟩, ⟨300, 50⟩, ⟨600, 50⟩] }

/-- Bundle used by the engine-isolation witness. -/
def c8Data : PatientData :=
  { glucose_readings := [⟨30, 200⟩], insulin_events := [],
    carb_events := [⟨0, 60⟩] }

/-- Bundle with no glucose readings but with carb and insulin events. -/
def c9Data : PatientData :=
  { glucose_readings := [],
    insulin_events := [⟨0, "bolus", 5⟩, ⟨10, "bolus", 4⟩, ⟨20, "bolus", 3⟩],
    carb_events := [⟨0, 50⟩, ⟨10, 50⟩, ⟨20, 50⟩] }

/-- Two readings whose timestamps are 48 hours apart. -/
def c6Stream : List SimpleReading := [⟨some 0, 100⟩, ⟨some 2880, 100⟩]

/-- The same glucose values with no timestamps at all. -/
def c6StreamNoTs : List SimpleReading := [⟨none, 100⟩, ⟨none, 100⟩]

/-- A one-reading stream for quality-gate witnesses. -/
def c5Stream : List SimpleReading := [⟨none, 100⟩]

/-- A four-value glucose sequence for the metrics witness. -/
def c7List : List ℚ := [70, 80, 100, 90]

/-! # Theorems

General bridge lemmas first, then per-rule characterisations, then the
claim theorems with their witnesses and counterexamples. -/

theorem foldl_appendStep {α β : Type} (f : α → Option β) :
    ∀ (l : List α) (acc : List β),
    l.foldl (fun a x => appendStep a (f x)) acc = acc ++ l.filterMap f
  | [], acc => by simp
  | x :: xs, acc => by
    rw [List.foldl_cons, List.filterMap_cons]
    cases h : f x with
    | none =>
      have e1 : appendStep acc (none : Option β) = acc := rfl
      rw [e1, foldl_appendStep f xs acc]
    | some b =>
      have e1 : appendStep acc (some b) = acc ++ [b] := rfl
      rw [e1, foldl_appendStep f xs (acc ++ [b]), List.append_assoc]
      rfl

theorem foldl_optStep {α β γ : Type} (f : α → Option β) (step : γ → β → γ) :
    ∀ (l : List α) (init : γ),
    l.foldl (fun g x => optStep step g (f x)) init =
      (l.filterMap f).foldl step init
  | [], _ => by simp
  | x :: xs, init => by
    rw [List.foldl_cons, List.filterMap_cons]
    cases h : f x with
    | none =>
      have e1 : optStep step init (none : Option β) = init := rfl
      rw [e1, foldl_optStep f step xs init]
    | some b =>
      have e1 : optStep step init (some b) = step init b := rfl
      rw [e1, foldl_optStep f step xs (step init b)]
      rfl

theorem length_filterMap_eq_countP {α β : Type} (f : α → Option β) :
    ∀ l : List α, (l.filterMap f).length = l.countP (fun x => (f x).isSome)
  | [] => rfl
  | x :: xs => by
    rw [List.filterMap_cons, List.countP_cons]
    cases h : f x <;>
      simp [h, length_filterMap_eq_countP f xs, Option.isSome]

theorem lt_foldl_max (c : ℚ) :
    ∀ (l : List ℚ) (a : ℚ), c < l.foldl max a ↔ c < a ∨ ∃ x ∈ l, c < x
  | [], a => by simp
  | x :: xs, a => by
    rw [List.foldl_cons, lt_foldl_max c xs (max a x)]
    simp only [lt_max_iff, List.mem_cons]
    constructor
    · rintro ((h | h) | ⟨y, hy, h⟩)
      · exact Or.inl h
      · exact Or.inr ⟨x, Or.inl rfl, h⟩
      · exact Or.inr ⟨y, Or.inr hy, h⟩
    · rintro (h | ⟨y, (rfl | hy), h⟩)
      · exact Or.inl (Or.inl h)
      · exact Or.inl (Or.inr h)
      · exact Or.inr ⟨y, hy, h⟩

/-- C1: the windowed temporal correlation selects exactly the target events
with timestamp in the inclusive window `[A + afterMin, A + beforeMin]`,
drops and duplicates nothing (occurrence counts are preserved), keeps the
stream order (the selection is a sublist), and is the selection every rule
applies (the R1/R3 postprandial filter and the R2 post-bolus filter are its
`[0, 120]`-minute instances). -/
theorem windowed_correlation_correct :
    (∀ (A a b : ℚ) (s : List GlucoseReading) (g : GlucoseReading),
        g ∈ windowedCorrelation A a b s ↔
          g ∈ s ∧ A + a ≤ g.timestamp ∧ g.timestamp ≤ A + b) ∧
    (∀ (A a b : ℚ) (s : List GlucoseReading),
        (windowedCorrelation A a b s).Sublist s) ∧
    (∀ (A a b : ℚ) (s : List GlucoseReading) (g : GlucoseReading),
        (windowedCorrelation A a b s).count g =
          if A + a ≤ g.timestamp ∧ g.timestamp ≤ A + b then s.count g
          else 0) ∧
    (∀ (mt : ℚ) (rs : List GlucoseReading),
        postprandialReadings mt rs = windowedCorrelation mt 0 120 rs) ∧
    (∀ (bts : ℚ) (rs : List GlucoseReading),
        postBolusReadings bts rs = windowedCorrelation bts 0 120 rs) := by
  refine ⟨?_, ?_, ?_, ?_, ?_⟩
  · intro A a b s g
    simp [windowedCorrelation, List.mem_filter]
  · intro A a b s
    exact List.filter_sublist s
  · intro A a b s g
    by_cases h : A + a ≤ g.timestamp ∧ g.timestamp ≤ A + b
    · rw [if_pos h]
      exact List.count_filter (by simpa using h)
    · rw [if_neg h, List.count_eq_zero]
      intro hmem
      exact h (by simpa using (List.mem_filter.mp hmem).2)
  · intro mt rs
    apply List.filter_congr
    intro x _
    simp [postprandial_window]
  · intro bts rs
    apply List.filter_congr
    intro x _
    simp

/-! ## Rule R1 characterisation -/

theorem r1Qualifies_iff_filter (data : PatientData) (mt : ℚ) :
    r1Qualifies data mt ↔
      ∃ g ∈ postprandialReadings mt data.glucose_readings,
        180 < g.glucose_value := by
  unfold r1Qualifies postprandialReadings postprandial_window
  constructor
  · rintro ⟨g, hg, h1, h2, h3⟩
    exact ⟨g, List.mem_filter.mpr ⟨hg, by simp [h1, h2]⟩, h3⟩
  · rintro ⟨g, hg, h3⟩
    obtain ⟨hg, hcond⟩ := List.mem_filter.mp hg
    simp only [decide_eq_true_eq] at hcond
    exact ⟨g, hg, hcond.1, hcond.2, h3⟩

theorem exists_gt_of_cons_max (r : GlucoseReading) (rest : List GlucoseReading)
    (c : ℚ) :
    c < (rest.map (·.glucose_value)).foldl max r.glucose_value ↔
      ∃ g ∈ r :: rest, c < g.glucose_value := by
  rw [lt_foldl_max]
  constructor
  · rintro (h1 | ⟨x, hx, h1⟩)
    · exact ⟨r, List.mem_cons_self r rest, h1⟩
    · obtain ⟨g, hg, rfl⟩ := List.mem_map.mp hx
      exact ⟨g, List.mem_cons_of_mem r hg, h1⟩
  · rintro ⟨g, hg, h1⟩
    rcases List.mem_cons.mp hg with rfl | hg
    · exact Or.inl h1
    · exact Or.inr ⟨g.glucose_value, List.mem_map_of_mem _ hg, h1⟩

theorem r1Step_nil (data : PatientData) (mt : ℚ)
    (h : postprandialReadings mt data.glucose_readings = []) :
    r1Step data mt = none := by
  unfold r1Step
  rw [h]

theorem r1Step_cons (data : PatientData) (mt : ℚ) (r : GlucoseReading)
    (rest : List GlucoseReading)
    (h : postprandialReadings mt data.glucose_readings = r :: rest) :
    r1Step data mt =
      if postprandial_threshold <
          (rest.map (·.glucose_value)).foldl max r.glucose_value then
        some (.postprandial mt
          ((rest.map (·.glucose_value)).foldl max r.glucose_value)
          ((data.carb_events.find?
            (fun e => decide (e.timestamp = mt))).map (·.carbs))
          (find_peak_time mt (r :: rest)))
      else none := by
  unfold r1Step
  rw [h]

theorem r1Step_isSome_iff (data : PatientData) (mt : ℚ) :
    (r1Step data mt).isSome = true ↔ r1Qualifies data mt := by
  rw [r1Qualifies_iff_filter]
  cases h : postprandialReadings mt data.glucose_readings with
  | nil => rw [r1Step_nil data mt h]; simp
  | cons r rest =>
    rw [r1Step_cons data mt r rest h]
    have hmax := exists_gt_of_cons_max r rest 180
    by_cases hc : postprandial_threshold <
        (rest.map (·.glucose_value)).foldl max r.glucose_value
    · rw [if_pos hc]
      have : (180 : ℚ) <
          (rest.map (·.glucose_value)).foldl max r.glucose_value := hc
      simpa using hmax.mp this
    · rw [if_neg hc]
      simp only [Option.isSome_none, Bool.false_eq_true, false_iff]
      intro hex
      exact hc (hmax.mpr hex)

theorem r1Step_isSome_eq (data : PatientData) (mt : ℚ) :
    (r1Step data mt).isSome = decide (r1Qualifies data mt) := by
  by_cases h : r1Qualifies data mt
  · rw [(r1Step_isSome_iff data mt).mpr h, decide_eq_true h]
  · rw [decide_eq_false h]
    by_contra hne
    exact h ((r1Step_isSome_iff data mt).mp
      (by revert hne; cases (r1Step data mt).isSome <;> simp))

theorem r1_events_length (data : PatientData) :
    ((data.carb_events.map (·.timestamp)).filterMap (r1Step data)).length =
      r1QualCount data := by
  rw [length_filterMap_eq_countP, List.countP_map]
  unfold r1QualCount
  apply List.countP_congr
  intro ce _
  show (r1Step data ce.timestamp).isSome = true ↔
    decide (r1Qualifies data ce.timestamp) = true
  rw [r1Step_isSome_eq]

theorem severity_postprandial_eq (c t : ℕ) :
    calculate_severity c t "postprandial" = r1Severity c t := by
  unfold calculate_severity r1Severity
  by_cases h : c = 0 ∨ t = 0
  · rw [if_pos h]
    rcases h with rfl | rfl
    · norm_num
    · norm_num
  · rw [if_neg h]
    simp

theorem detect_postprandial_none_iff (data : PatientData) :
    detect_postprandial data = none ↔ r1QualCount data = 0 := by
  have hlen := r1_events_length data
  simp only [detect_postprandial, foldl_appendStep, List.nil_append]
  by_cases he :
      ((data.carb_events.map (·.timestamp)).filterMap (r1Step data)).isEmpty
  · rw [if_pos he]
    rw [List.isEmpty_iff] at he
    simp only [true_iff]
    rw [← hlen, he]
    rfl
  · rw [if_neg he]
    simp only [reduceCtorEq, false_iff]
    intro h0
    apply he
    rw [List.isEmpty_iff, ← List.length_eq_zero, hlen, h0]

theorem detect_postprandial_some (data : PatientData) (res : AnalyticsResult)
    (h : detect_postprandial data = some res) :
    res.rule_name = "postprandial_hyperglycemia" ∧
    res.count = r1QualCount data ∧ 0 < res.count ∧
    res.evidence.length = res.count ∧
    res.severity = r1Severity (r1QualCount data) data.carb_events.length := by
  have hlen := r1_events_length data
  simp only [detect_postprandial, foldl_appendStep, List.nil_append] at h
  by_cases he :
      ((data.carb_events.map (·.timestamp)).filterMap (r1Step data)).isEmpty
  · rw [if_pos he] at h
    exact absurd h (by simp)
  · rw [if_neg he] at h
    obtain rfl := Option.some_inj.mp h
    refine ⟨rfl, hlen, ?_, rfl, ?_⟩
    · exact List.length_pos.mpr (fun hnil => he (List.isEmpty_iff.mpr hnil))
    · show calculate_severity
        ((data.carb_events.map (·.timestamp)).filterMap (r1Step data)).length
        (data.carb_events.map (·.timestamp)).length "postprandial" =
        r1Severity (r1QualCount data) data.carb_events.length
      rw [hlen, List.length_map, severity_postprandial_eq]

/-- C2 (amended): R1 records one occurrence per carb event whose maximum
glucose over readings in the inclusive window `[meal, meal + 120 min]`
exceeds 180 mg/dL (equivalently: some window reading exceeds 180); severity
is high iff occurrences / total carb events is at least 0.5, medium iff at
least 0.3, else low; no Finding is returned with zero occurrences; the
stored minutes-to-peak is the timestamp of the (first) maximum-value
reading minus the meal time, truncated toward zero to whole minutes. The
claim's concrete scenario (meal at 0, one reading of 200 mg/dL at
30 minutes) yields exactly one Finding with count 1 and minutes-to-peak
30. -/
theorem postprandial_rule_correct :
    (∀ data : PatientData,
        detect_postprandial data = none ↔ r1QualCount data = 0) ∧
    (∀ (data : PatientData) (res : AnalyticsResult),
        detect_postprandial data = some res →
          res.rule_name = "postprandial_hyperglycemia" ∧
          res.count = r1QualCount data ∧ 0 < res.count ∧
          res.evidence.length = res.count ∧
          res.severity =
            r1Severity (r1QualCount data) data.carb_events.length) ∧
    analyze_patient_data c2Data =
      [⟨"postprandial_hyperglycemia", "high", 1,
        [.postprandial 0 200 (some 60) 30]⟩] := by
  refine ⟨detect_postprandial_none_iff, detect_postprandial_some, ?_⟩
  norm_num [analyze_patient_data, runRules, engineRules, detect_postprandial,
    detect_mistimed, detect_carb_ratio, r1Step, r2Step, r3Step,
    postprandialReadings, postBolusReadings, delayedBoluses, findBolus,
    group_similar_meals, addToGroup, mkMeal, listMaxD, appendStep, optStep,
    calculate_severity, find_peak_time, maxByGlucose, truncToInt, bucketLB,
    carbRangeStr, mealDetail, round1, roundHalfEven, c2Data,
    postprandial_threshold, postprandial_window, mistimed_bolus_threshold,
    mistimed_bolus_delay, List.filter, List.foldl, List.filterMap, List.find?]

/-- C2 witness: the characterisation applied to the concrete scenario. -/
theorem postprandial_rule_correct_witness : r1QualCount c2Data = 1 := by
  have hsome : detect_postprandial c2Data =
      some ⟨"postprandial_hyperglycemia", "high", 1,
        [.postprandial 0 200 (some 60) 30]⟩ := by
    norm_num [detect_postprandial, r1Step, postprandialReadings, appendStep,
      calculate_severity, find_peak_time, maxByGlucose, truncToInt, c2Data,
      postprandial_threshold, postprandial_window, List.filter, List.foldl,
      List.filterMap, List.find?]
  exact (postprandial_rule_correct.2.1 c2Data _ hsome).2.1.symm

/-! ## Rule R2 characterisation -/

theorem r2GlucoseCond_iff_filter (data : PatientData) (bts : ℚ) :
    (∃ g ∈ data.glucose_readings,
        bts ≤ g.timestamp ∧ g.timestamp ≤ bts + 120 ∧ 160 < g.glucose_value) ↔
      ∃ g ∈ postBolusReadings bts data.glucose_readings,
        160 < g.glucose_value := by
  unfold postBolusReadings
  constructor
  · rintro ⟨g, hg, h1, h2, h3⟩
    exact ⟨g, List.mem_filter.mpr ⟨hg, by simp [h1, h2]⟩, h3⟩
  · rintro ⟨g, hg, h3⟩
    obtain ⟨hg, hcond⟩ := List.mem_filter.mp hg
    simp only [decide_eq_true_eq] at hcond
    exact ⟨g, hg, hcond.1, hcond.2, h3⟩

theorem r2Step_nil (data : PatientData) (ce : CarbEvent) (b : InsulinEvent)
    (h : postBolusReadings b.timestamp data.glucose_readings = []) :
    r2Step data ce b = none := by
  unfold r2Step
  rw [h]

theorem r2Step_cons (data : PatientData) (ce : CarbEvent) (b : InsulinEvent)
    (r : GlucoseReading) (rest : List GlucoseReading)
    (h : postBolusReadings b.timestamp data.glucose_readings = r :: rest) :
    r2Step data ce b =
      if mistimed_bolus_threshold <
          (rest.map (·.glucose_value)).foldl max r.glucose_value then
        some (.mistimed ce.timestamp b.timestamp
          (round1 (b.timestamp - ce.timestamp))
          ((rest.map (·.glucose_value)).foldl max r.glucose_value)
          ce.carbs b.units)
      else none := by
  unfold r2Step
  rw [h]

theorem r2Step_isSome_iff (data : PatientData) (ce : CarbEvent)
    (b : InsulinEvent) :
    (r2Step data ce b).isSome = true ↔
      ∃ g ∈ data.glucose_readings,
        b.timestamp ≤ g.timestamp ∧ g.timestamp ≤ b.timestamp + 120 ∧
        160 < g.glucose_value := by
  rw [r2GlucoseCond_iff_filter]
  cases h : postBolusReadings b.timestamp data.glucose_readings with
  | nil => rw [r2Step_nil data ce b h]; simp
  | cons r rest =>
    rw [r2Step_cons data ce b r rest h]
    have hmax := exists_gt_of_cons_max r rest 160
    by_cases hc : mistimed_bolus_threshold <
        (rest.map (·.glucose_value)).foldl max r.glucose_value
    · rw [if_pos hc]
      have : (160 : ℚ) <
          (rest.map (·.glucose_value)).foldl max r.glucose_value := hc
      simpa using hmax.mp this
    · rw [if_neg hc]
      simp only [Option.isSome_none, Bool.false_eq_true, false_iff]
      intro hex
      exact hc (hmax.mpr hex)

theorem r2_pair_count (data : PatientData) (ce : CarbEvent) :
    ((delayedBoluses data ce.timestamp).filterMap (r2Step data ce)).length =
      data.insulin_events.countP (fun b => decide (r2Qualifies data ce b)) := by
  rw [length_filterMap_eq_countP]
  unfold delayedBoluses
  rw [List.countP_filter]
  apply List.countP_congr
  intro b _
  show ((r2Step data ce b).isSome &&
      (b.insulin_type == "bolus" &&
        decide (ce.timestamp < b.timestamp) &&
        decide (b.timestamp ≤ ce.timestamp + 60) &&
        decide (mistimed_bolus_delay < b.timestamp - ce.timestamp))) = true ↔
    decide (r2Qualifies data ce b) = true
  simp only [Bool.and_eq_true, decide_eq_true_eq, beq_iff_eq,
    r2Qualifies, mistimed_bolus_delay]
  rw [r2Step_isSome_iff data ce b]
  tauto

theorem r2_events (data : PatientData) :
    ∀ (cs : List CarbEvent) (acc : List Evidence),
    cs.foldl (fun acc ce =>
      (delayedBoluses data ce.timestamp).foldl
        (fun acc2 b => appendStep acc2 (r2Step data ce b)) acc) acc =
      acc ++ (cs.map (fun ce =>
        (delayedBoluses data ce.timestamp).filterMap (r2Step data ce))).flatten
  | [], acc => by simp
  | ce :: cs, acc => by
    rw [List.foldl_cons, foldl_appendStep, r2_events data cs, List.map_cons,
      List.flatten_cons, List.append_assoc]

theorem r2_events_length (data : PatientData) :
    ((data.carb_events.map (fun ce =>
        (delayedBoluses data ce.timestamp).filterMap
          (r2Step data ce))).flatten).length = r2QualCount data := by
  rw [List.length_flatten, List.map_map]
  unfold r2QualCount
  congr 1
  apply List.map_congr_left
  intro ce _
  exact r2_pair_count data ce

theorem severity_mistimed_eq (c t : ℕ) :
    calculate_severity c t "mistimed" = r2Severity c t := by
  unfold calculate_severity r2Severity
  by_cases h : c = 0 ∨ t = 0
  · rw [if_pos h]
    rcases h with rfl | rfl
    · norm_num
    · norm_num
  · rw [if_neg h]
    simp

theorem detect_mistimed_none_iff (data : PatientData) :
    detect_mistimed data = none ↔ r2QualCount data = 0 := by
  have hlen := r2_events_length data
  simp only [detect_mistimed, r2_events, List.nil_append]
  by_cases he : ((data.carb_events.map (fun ce =>
      (delayedBoluses data ce.timestamp).filterMap
        (r2Step data ce))).flatten).isEmpty
  · rw [if_pos he]
    rw [List.isEmpty_iff] at he
    simp only [true_iff]
    rw [← hlen, he]
    rfl
  · rw [if_neg he]
    simp only [reduceCtorEq, false_iff]
    intro h0
    apply he
    rw [List.isEmpty_iff, ← List.length_eq_zero, hlen, h0]

theorem detect_mistimed_some (data : PatientData) (res : AnalyticsResult)
    (h : detect_mistimed data = some res) :
    res.rule_name = "mistimed_bolus" ∧
    res.count = r2QualCount data ∧ 0 < res.count ∧
    res.evidence.length = res.count ∧
    res.severity = r2Severity (r2QualCount data) data.carb_events.length := by
  have hlen := r2_events_length data
  simp only [detect_mistimed, r2_events, List.nil_append] at h
  by_cases he : ((data.carb_events.map (fun ce =>
      (delayedBoluses data ce.timestamp).filterMap
        (r2Step data ce))).flatten).isEmpty
  · rw [if_pos he] at h
    exact absurd h (by simp)
  · rw [if_neg he] at h
    obtain rfl := Option.some_inj.mp h
    refine ⟨rfl, hlen, ?_, rfl, ?_⟩
    · exact List.length_pos.mpr (fun hnil => he (List.isEmpty_iff.mpr hnil))
    · show calculate_severity _ data.carb_events.length "mistimed" =
        r2Severity (r2QualCount data) data.carb_events.length
      rw [hlen, severity_mistimed_eq]

/-- C3 (amended): for every carb event at meal time T, R2 considers bolus
insulin events in the half-open window `(T, T+60]` whose delay past T
exceeds 10 minutes; each such bolus yields one occurrence exactly when the
maximum glucose over readings in the inclusive window
`[bolus, bolus + 120 min]` exceeds 160 mg/dL, with the stored delay equal
to (bolus time - meal time) ROUNDED to one decimal place (Python
`round(x, 1)`, half to even); severity is high iff
occurrences / total carb events is at least 0.3, medium iff at least 0.2,
else low. The claim's concrete scenario (bolus 15 minutes after the meal,
glucose maximum 185 mg/dL within 2 hours) yields exactly one occurrence
with delay 15. -/
theorem mistimed_rule_correct :
    (∀ data : PatientData,
        detect_mistimed data = none ↔ r2QualCount data = 0) ∧
    (∀ (data : PatientData) (res : AnalyticsResult),
        detect_mistimed data = some res →
          res.rule_name = "mistimed_bolus" ∧
          res.count = r2QualCount data ∧ 0 < res.count ∧
          res.evidence.length = res.count ∧
          res.severity =
            r2Severity (r2QualCount data) data.carb_events.length) ∧
    detect_mistimed c3Data =
      some ⟨"mistimed_bolus", "high", 1,
        [.mistimed 0 15 15 185 60 8]⟩ := by
  refine ⟨detect_mistimed_none_iff, detect_mistimed_some, ?_⟩
  norm_num [detect_mistimed, r2Step, postBolusReadings, delayedBoluses,
    appendStep, calculate_severity, round1, roundHalfEven, c3Data,
    mistimed_bolus_threshold, mistimed_bolus_delay, List.filter, List.foldl,
    List.filterMap]

/-- C3 witness: the characterisation applied to the concrete scenario. -/
theorem mistimed_rule_correct_witness : r2QualCount c3Data = 1 := by
  have hsome : detect_mistimed c3Data =
      some ⟨"mistimed_bolus", "high", 1, [.mistimed 0 15 15 185 60 8]⟩ := by
    norm_num [detect_mistimed, r2Step, postBolusReadings, delayedBoluses,
      appendStep, calculate_severity, round1, roundHalfEven, c3Data,
      mistimed_bolus_threshold, mistimed_bolus_delay, List.filter, List.foldl,
      List.filterMap]
  exact (mistimed_rule_correct.2.1 c3Data _ hsome).2.1.symm

set_option maxRecDepth 8000 in
/-- C3 counterexample to the claim as stated: a bolus 15 minutes 10 seconds
after the meal (delay 91/6 minutes) stores delay-minutes 15.2 = 76/5, while
the claim asserts the exact difference 91/6. -/
theorem mistimed_delay_rounded_cex :
    detect_mistimed c3CxData =
      some ⟨"mistimed_bolus", "high", 1,
        [.mistimed 0 (91/6) (76/5) 185 60 8]⟩ ∧
    (76/5 : ℚ) ≠ 91/6 - 0 := by
  constructor
  · have hf : Int.fract ((455 : ℚ)/3) = 2/3 := by
      unfold Int.fract
      norm_num
    norm_num [detect_mistimed, r2Step, postBolusReadings, delayedBoluses,
      appendStep, calculate_severity, round1, roundHalfEven, hf,
      c3CxData, mistimed_bolus_threshold, mistimed_bolus_delay, List.filter,
      List.foldl, List.filterMap]
  · norm_num

/-- C2 counterexample to the claim as stated: a meal at 0 with its only
(hence maximum-value) reading at 30.5 minutes stores minutes-to-peak 30,
while the claimed value - the timestamp of the maximum-value reading minus
the meal time - is 30.5. -/
theorem postprandial_peak_truncated_cex :
    detect_postprandial c2CxData =
      some ⟨"postprandial_hyperglycemia", "high", 1,
        [.postprandial 0 200 (some 60) 30]⟩ ∧
    ((30 : ℤ) : ℚ) ≠ 61/2 - 0 := by
  constructor
  · norm_num [detect_postprandial, r1Step, postprandialReadings, appendStep,
      calculate_severity, find_peak_time, maxByGlucose, truncToInt, c2CxData,
      postprandial_threshold, postprandial_window, List.filter, List.foldl,
      List.filterMap, List.find?]
  · norm_num

/-! ## Rule R3 characterisation: the insertion-order grouping -/

theorem valuesAt_nil (k : ℤ) : valuesAt [] k = [] := rfl

theorem valuesAt_cons (k1 : ℤ) (ms : List Meal) (rest : List (ℤ × List Meal))
    (k : ℤ) :
    valuesAt ((k1, ms) :: rest) k =
      (if k1 = k then ms else []) ++ valuesAt rest k := by
  by_cases h : k1 = k <;> simp [valuesAt, List.filter, h]

theorem valuesAt_eq_nil (k : ℤ) :
    ∀ (g : List (ℤ × List Meal)), k ∉ g.map Prod.fst → valuesAt g k = []
  | [], _ => rfl
  | (k1, ms) :: rest, h => by
    rw [valuesAt_cons]
    have h1 : k1 ≠ k := fun hh => h (by simp [hh])
    rw [if_neg h1, List.nil_append]
    exact valuesAt_eq_nil k rest (fun hh => h (by simp [hh]))

theorem keys_addToGroup (k : ℤ) (m : Meal) :
    ∀ g : List (ℤ × List Meal),
    (addToGroup g k m).map Prod.fst =
      if k ∈ g.map Prod.fst then g.map Prod.fst else g.map Prod.fst ++ [k]
  | [] => by simp [addToGroup]
  | (k1, ms) :: rest => by
    simp only [addToGroup]
    by_cases h1 : k1 = k
    · subst h1
      rw [if_pos (by simp)]
      simp
    · rw [if_neg h1, List.map_cons, List.map_cons, keys_addToGroup k m rest]
      by_cases h2 : k ∈ rest.map Prod.fst
      · rw [if_pos h2, if_pos (by simp [h2])]
      · rw [if_neg h2, if_neg (by
          simp only [List.mem_cons]
          push_neg
          exact ⟨Ne.symm h1, h2⟩), List.cons_append]

theorem valuesAt_addToGroup (k : ℤ) (m : Meal) (k' : ℤ) :
    ∀ g : List (ℤ × List Meal), (g.map Prod.fst).Nodup →
    valuesAt (addToGroup g k m) k' =
      if k' = k then valuesAt g k' ++ [m] else valuesAt g k'
  | [], _ => by
    have e : addToGroup [] k m = [(k, [m])] := rfl
    rw [e, valuesAt_cons, valuesAt_nil]
    by_cases h : k' = k
    · rw [if_pos (h.symm), if_pos h]
      simp
    · rw [if_neg (Ne.symm h), if_neg h]
      simp
  | (k1, ms) :: rest, hnd => by
    have hnd1 : k1 ∉ rest.map Prod.fst := by
      simp only [List.map_cons, List.nodup_cons] at hnd
      exact hnd.1
    have hndr : (rest.map Prod.fst).Nodup := by
      simp only [List.map_cons, List.nodup_cons] at hnd
      exact hnd.2
    by_cases h1 : k1 = k
    · subst h1
      have e : addToGroup ((k1, ms) :: rest) k1 m =
          (k1, ms ++ [m]) :: rest := by
        simp [addToGroup]
      rw [e, valuesAt_cons]
      by_cases h2 : k' = k1
      · have hk' : k' ∉ rest.map Prod.fst := by
          rw [h2]
          exact hnd1
        rw [if_pos (h2.symm), if_pos h2, valuesAt_cons, if_pos (h2.symm),
          valuesAt_eq_nil k' rest hk']
        simp
      · rw [if_neg (Ne.symm h2), if_neg h2, valuesAt_cons,
          if_neg (Ne.symm h2)]
    · have e : addToGroup ((k1, ms) :: rest) k m =
          (k1, ms) :: addToGroup rest k m := by
        simp [addToGroup, h1]
      rw [e, valuesAt_cons, valuesAt_addToGroup k m k' rest hndr]
      by_cases h2 : k' = k
      · rw [if_pos h2, if_pos h2, valuesAt_cons]
        simp
      · rw [if_neg h2, if_neg h2, valuesAt_cons]

theorem groupsOf_step (ps : List (ℤ × Meal)) (g : List (ℤ × List Meal))
    (h : GroupsOf ps g) (k : ℤ) (m : Meal) :
    GroupsOf (ps ++ [(k, m)]) (addToGroup g k m) := by
  obtain ⟨hnd, hmem, hval⟩ := h
  refine ⟨?_, ?_, ?_⟩
  · rw [keys_addToGroup]
    by_cases hk : k ∈ g.map Prod.fst
    · rw [if_pos hk]
      exact hnd
    · rw [if_neg hk]
      simp [List.nodup_append, hnd, hk]
  · intro k'
    rw [keys_addToGroup]
    by_cases hk : k ∈ g.map Prod.fst
    · rw [if_pos hk]
      rw [hmem k', List.map_append]
      have hkps : k ∈ ps.map Prod.fst := (hmem k).mp hk
      simp only [List.mem_append, List.map_cons, List.map_nil,
        List.mem_singleton]
      constructor
      · exact Or.inl
      · rintro (h | rfl)
        · exact h
        · exact hkps
    · rw [if_neg hk, List.map_append]
      simp only [List.mem_append, List.mem_singleton, List.map_cons,
        List.map_nil, hmem k']
  · intro k'
    rw [valuesAt_addToGroup k m k' g hnd, List.filter_append, List.map_append]
    by_cases hk' : k' = k
    · subst hk'
      rw [if_pos rfl, hval]
      simp [List.filter]
    · rw [if_neg hk', hval]
      have : k ≠ k' := fun hh => hk' hh.symm
      simp [List.filter, this]

theorem groupsOf_foldl :
    ∀ (qs ps : List (ℤ × Meal)) (g : List (ℤ × List Meal)),
    GroupsOf ps g →
    GroupsOf (ps ++ qs) (qs.foldl (fun g p => addToGroup g p.1 p.2) g)
  | [], ps, g, h => by simpa using h
  | q :: qs, ps, g, h => by
    rw [List.foldl_cons]
    have h2 := groupsOf_step ps g h q.1 q.2
    have h3 := groupsOf_foldl qs (ps ++ [(q.1, q.2)]) (addToGroup g q.1 q.2) h2
    simpa [List.append_assoc] using h3

theorem groupsOf_group_similar_meals (cs : List CarbEvent)
    (ins : List InsulinEvent) (rs : List GlucoseReading) :
    GroupsOf
      (cs.filterMap (fun ce => (findBolus ins ce.timestamp).map
        (fun b => (bucketLB ce.carbs, mkMeal ce b rs))))
      (group_similar_meals cs ins rs) := by
  unfold group_similar_meals
  rw [foldl_optStep]
  have h0 : GroupsOf [] ([] : List (ℤ × List Meal)) := by
    refine ⟨List.nodup_nil, ?_, ?_⟩ <;> simp [valuesAt]
  simpa using groupsOf_foldl
    (cs.filterMap (fun ce => (findBolus ins ce.timestamp).map
      (fun b => (bucketLB ce.carbs, mkMeal ce b rs)))) [] [] h0

theorem snd_eq_valuesAt :
    ∀ (g : List (ℤ × List Meal)), (g.map Prod.fst).Nodup →
    ∀ e ∈ g, e.2 = valuesAt g e.1
  | [], _, e, he => absurd he (List.not_mem_nil e)
  | (k1, ms) :: rest, hnd, e, he => by
    have hnd1 : k1 ∉ rest.map Prod.fst := by
      simp only [List.map_cons, List.nodup_cons] at hnd
      exact hnd.1
    have hndr : (rest.map Prod.fst).Nodup := by
      simp only [List.map_cons, List.nodup_cons] at hnd
      exact hnd.2
    rcases List.mem_cons.mp he with rfl | he2
    · rw [valuesAt_cons, if_pos rfl, valuesAt_eq_nil k1 rest hnd1]
      simp
    · rw [valuesAt_cons]
      have hne : k1 ≠ e.1 := by
        intro hh
        apply hnd1
        rw [hh]
        exact List.mem_map_of_mem Prod.fst he2
      rw [if_neg hne, List.nil_append]
      exact snd_eq_valuesAt rest hndr e he2

theorem r3Meals_eq_valuesAt (data : PatientData) (k : ℤ) :
    valuesAt (group_similar_meals data.carb_events data.insulin_events
      data.glucose_readings) k = r3Meals data k := by
  have h := (groupsOf_group_similar_meals data.carb_events data.insulin_events
    data.glucose_readings).2.2 k
  rw [h]
  rfl

theorem groups_eq_keys_map (data : PatientData) :
    group_similar_meals data.carb_events data.insulin_events
      data.glucose_readings =
    ((group_similar_meals data.carb_events data.insulin_events
      data.glucose_readings).map Prod.fst).map
        (fun k => (k, r3Meals data k)) := by
  obtain ⟨hnd, hmem, hval⟩ := groupsOf_group_similar_meals data.carb_events
    data.insulin_events data.glucose_readings
  rw [List.map_map]
  symm
  have he : ∀ e ∈ group_similar_meals data.carb_events data.insulin_events
      data.glucose_readings,
      ((fun k => (k, r3Meals data k)) ∘ Prod.fst) e = id e := by
    intro e hee
    have h2 := snd_eq_valuesAt _ hnd e hee
    have h3 := r3Meals_eq_valuesAt data e.1
    simp only [Function.comp_apply, id_eq]
    rw [← h3, ← h2]
  rw [List.map_congr_left he, List.map_id]

theorem filterMap_ite_eq_filter_map {α β : Type} (p : α → Prop)
    [DecidablePred p] (f : α → β) :
    ∀ l : List α,
    l.filterMap (fun a => if p a then some (f a) else none) =
      (l.filter (fun a => decide (p a))).map f
  | [] => rfl
  | x :: xs => by
    rw [List.filterMap_cons, List.filter_cons]
    by_cases h : p x
    · rw [if_pos h, if_pos (by simpa using h), List.map_cons,
        filterMap_ite_eq_filter_map p f xs]
    · rw [if_neg h, if_neg (by simpa using h),
        filterMap_ite_eq_filter_map p f xs]

theorem r3ProbCount_eq_filter (data : PatientData) (k : ℤ) :
    r3ProbCount data k = ((r3Meals data k).filter
      (fun m => decide (180 < m.max_postprandial_glucose))).length :=
  List.countP_eq_length_filter _ _

theorem r3Bucket_filter_form (data : PatientData) (k : ℤ) :
    r3Bucket data k =
      { carb_range := carbRangeStr k,
        total_meals := (r3Meals data k).length,
        problematic_meals := ((r3Meals data k).filter
          (fun m => decide (180 < m.max_postprandial_glucose))).length,
        meal_details := ((r3Meals data k).filter
          (fun m => decide (180 < m.max_postprandial_glucose))).map
            mealDetail } := by
  unfold r3Bucket
  rw [r3ProbCount_eq_filter]

theorem r3Step_at_key (data : PatientData) (k : ℤ) :
    r3Step (k, r3Meals data k) =
      if r3Qual data k then some (r3Bucket data k) else none := by
  have hstep : r3Step (k, r3Meals data k) =
      (if (r3Meals data k).length < 3 then (none : Option BucketEvidence)
       else if 3 ≤ ((r3Meals data k).filter
           (fun m => decide (180 < m.max_postprandial_glucose))).length then
         some ({ carb_range := carbRangeStr k,
                 total_meals := (r3Meals data k).length,
                 problematic_meals := ((r3Meals data k).filter
                   (fun m => decide (180 < m.max_postprandial_glucose))).length,
                 meal_details := ((r3Meals data k).filter
                   (fun m => decide (180 < m.max_postprandial_glucose))).map
                     mealDetail } : BucketEvidence)
       else none) := rfl
  rw [hstep]
  by_cases h1 : (r3Meals data k).length < 3
  · rw [if_pos h1,
      if_neg (fun hh : r3Qual data k => absurd h1 (Nat.not_lt.mpr hh.1))]
  · rw [if_neg h1]
    by_cases h2 : 3 ≤ ((r3Meals data k).filter
        (fun m => decide (180 < m.max_postprandial_glucose))).length
    · have hq : r3Qual data k := ⟨Nat.le_of_not_lt h1, by
        rw [r3ProbCount_eq_filter]
        exact h2⟩
      rw [if_pos h2, if_pos hq, r3Bucket_filter_form]
    · have hq : ¬ r3Qual data k := fun hh => h2 (by
        rw [← r3ProbCount_eq_filter]
        exact hh.2)
      rw [if_neg h2, if_neg hq]

theorem r3_events_eq (data : PatientData) :
    (group_similar_meals data.carb_events data.insulin_events
      data.glucose_readings).filterMap r3Step =
    (((group_similar_meals data.carb_events data.insulin_events
      data.glucose_readings).map Prod.fst).filter
        (fun k => decide (r3Qual data k))).map (r3Bucket data) := by
  conv_lhs => rw [groups_eq_keys_map data]
  rw [List.filterMap_map]
  rw [show r3Step ∘ (fun k => (k, r3Meals data k)) =
      (fun k => if r3Qual data k then some (r3Bucket data k) else none) from
    funext (fun k => by rw [Function.comp_apply, r3Step_at_key])]
  exact filterMap_ite_eq_filter_map _ _ _

theorem keys_toFinset (data : PatientData) :
    ((group_similar_meals data.carb_events data.insulin_events
      data.glucose_readings).map Prod.fst).toFinset = r3Keys data := by
  obtain ⟨hnd, hmem, hval⟩ := groupsOf_group_similar_meals data.carb_events
    data.insulin_events data.glucose_readings
  ext k
  rw [List.mem_toFinset, hmem k, r3Keys, List.mem_toFinset]
  exact Iff.rfl

theorem qual_keys_toFinset (data : PatientData) :
    (((group_similar_meals data.carb_events data.insulin_events
      data.glucose_readings).map Prod.fst).filter
        (fun k => decide (r3Qual data k))).toFinset = r3QualKeys data := by
  ext k
  rw [List.mem_toFinset, List.mem_filter, r3QualKeys, Finset.mem_filter,
    ← keys_toFinset data, List.mem_toFinset]
  simp

theorem detect_carb_ratio_none_iff (data : PatientData) :
    detect_carb_ratio data = none ↔ r3QualKeys data = ∅ := by
  simp only [detect_carb_ratio, foldl_appendStep, List.nil_append,
    r3_events_eq]
  by_cases he : ((((group_similar_meals data.carb_events data.insulin_events
      data.glucose_readings).map Prod.fst).filter
        (fun k => decide (r3Qual data k))).map (r3Bucket data)).isEmpty
  · rw [if_pos he]
    simp only [true_iff]
    rw [List.isEmpty_iff, List.map_eq_nil_iff] at he
    rw [← qual_keys_toFinset data, he]
    rfl
  · rw [if_neg he]
    simp only [reduceCtorEq, false_iff]
    intro h0
    apply he
    rw [List.isEmpty_iff, List.map_eq_nil_iff, ← List.toFinset_eq_empty_iff,
      qual_keys_toFinset data]
    exact h0

theorem r3_count_eq (data : PatientData) :
    (((((group_similar_meals data.carb_events data.insulin_events
      data.glucose_readings).map Prod.fst).filter
        (fun k => decide (r3Qual data k))).map (r3Bucket data)).map
          (fun e => e.problematic_meals)).sum = r3Count data := by
  obtain ⟨hnd, hmem, hval⟩ := groupsOf_group_similar_meals data.carb_events
    data.insulin_events data.glucose_readings
  rw [List.map_map]
  have hcomp : ((fun e => e.problematic_meals) ∘ r3Bucket data) =
      fun k => r3ProbCount data k := funext (fun k => rfl)
  rw [hcomp]
  have hndf := hnd.filter (fun k => decide (r3Qual data k))
  rw [r3Count, ← List.sum_toFinset _ hndf, qual_keys_toFinset data]

theorem r3_high_iff (data : PatientData) :
    (((((group_similar_meals data.carb_events data.insulin_events
      data.glucose_readings).map Prod.fst).filter
        (fun k => decide (r3Qual data k))).map (r3Bucket data)).any
          (fun e => 5 ≤ e.problematic_meals)) = true ↔
      ∃ k ∈ r3QualKeys data, 5 ≤ r3ProbCount data k := by
  rw [List.any_eq_true]
  constructor
  · rintro ⟨e, he, hp⟩
    obtain ⟨k, hk, rfl⟩ := List.mem_map.mp he
    refine ⟨k, ?_, by simpa using hp⟩
    rw [← qual_keys_toFinset data, List.mem_toFinset]
    exact hk
  · rintro ⟨k, hk, hp⟩
    rw [← qual_keys_toFinset data, List.mem_toFinset] at hk
    exact ⟨r3Bucket data k, List.mem_map_of_mem _ hk, by simpa using hp⟩

theorem detect_carb_ratio_some (data : PatientData) (res : AnalyticsResult)
    (h : detect_carb_ratio data = some res) :
    res.rule_name = "carb_ratio_mismatch" ∧
    res.count = r3Count data ∧
    (res.severity = "high" ↔
      ∃ k ∈ r3QualKeys data, 5 ≤ r3ProbCount data k) ∧
    (res.severity = "high" ∨ res.severity = "medium") ∧
    res.evidence.length = (r3QualKeys data).card := by
  simp only [detect_carb_ratio, foldl_appendStep, List.nil_append,
    r3_events_eq] at h
  by_cases he : ((((group_similar_meals data.carb_events data.insulin_events
      data.glucose_readings).map Prod.fst).filter
        (fun k => decide (r3Qual data k))).map (r3Bucket data)).isEmpty
  · rw [if_pos he] at h
    exact absurd h (by simp)
  · rw [if_neg he] at h
    obtain rfl := Option.some_inj.mp h
    obtain ⟨hnd, hmem, hval⟩ := groupsOf_group_similar_meals data.carb_events
      data.insulin_events data.glucose_readings
    dsimp only
    refine ⟨rfl, r3_count_eq data, ?_, ?_, ?_⟩
    · rw [← r3_high_iff data]
      by_cases hany : ((((group_similar_meals data.carb_events
          data.insulin_events data.glucose_readings).map Prod.fst).filter
            (fun k => decide (r3Qual data k))).map (r3Bucket data)).any
              (fun e => decide (5 ≤ e.problematic_meals)) = true
      · rw [if_pos hany]
        simp [hany]
      · rw [if_neg hany]
        constructor
        · intro hh
          exact absurd hh (by decide)
        · intro hh
          exact absurd hh hany
    · by_cases hany : ((((group_similar_meals data.carb_events
          data.insulin_events data.glucose_readings).map Prod.fst).filter
            (fun k => decide (r3Qual data k))).map (r3Bucket data)).any
              (fun e => decide (5 ≤ e.problematic_meals)) = true
      · left
        rw [if_pos hany]
      · right
        rw [if_neg hany]
    · rw [List.length_map, List.length_map, ← qual_keys_toFinset data,
        List.toFinset_card_of_nodup
          (hnd.filter (fun k => decide (r3Qual data k)))]

set_option maxRecDepth 8000 in
/-- C4 (amended): R3 groups the carb events that have an associated bolus
(the first bolus within 30 minutes either side) into 20-gram buckets; a
meal is problematic when its maximum glucose over
`[meal, meal + 120 min]` exceeds 180 mg/dL; a bucket contributes exactly
when it has at least 3 meals and at least 3 problematic meals; the Finding
count is the sum of problematic-meal counts over qualifying buckets;
severity is high iff some qualifying bucket has at least 5 problematic
meals, else medium; the per-meal estimated ratio is carbs / insulin units
ROUNDED to one decimal place, null unless units are positive. Three 50 g
meals in one bucket, each paired with a bolus and each exceeding
180 mg/dL post-meal, yield exactly one qualifying-bucket Finding with
count 3; two such meals yield no Finding. -/
theorem carb_ratio_rule_correct :
    (∀ data : PatientData,
        detect_carb_ratio data = none ↔ r3QualKeys data = ∅) ∧
    (∀ (data : PatientData) (res : AnalyticsResult),
        detect_carb_ratio data = some res →
          res.rule_name = "carb_ratio_mismatch" ∧
          res.count = r3Count data ∧
          (res.severity = "high" ↔
            ∃ k ∈ r3QualKeys data, 5 ≤ r3ProbCount data k) ∧
          (res.severity = "high" ∨ res.severity = "medium") ∧
          res.evidence.length = (r3QualKeys data).card) ∧
    detect_carb_ratio c4Data3 =
      some ⟨"carb_ratio_mismatch", "medium", 3,
        [.bucket ⟨"40-59g", 3, 3,
          [⟨0, 50, 5, 200, some 10⟩, ⟨300, 50, 5, 200, some 10⟩,
           ⟨600, 50, 5, 200, some 10⟩]⟩]⟩ ∧
    detect_carb_ratio c4Data2 = none := by
  refine ⟨detect_carb_ratio_none_iff, detect_carb_ratio_some, ?_, ?_⟩
  · norm_num [detect_carb_ratio, r3Step, group_similar_meals, addToGroup,
      findBolus, mkMeal, bucketLB, carbRangeStr, mealDetail, listMaxD,
      postprandialReadings, appendStep, optStep, round1, roundHalfEven,
      c4Data3, postprandial_threshold, postprandial_window, List.filter,
      List.foldl, List.filterMap, List.find?, Int.fract]
    rfl
  · norm_num [detect_carb_ratio, r3Step, group_similar_meals, addToGroup,
      findBolus, mkMeal, bucketLB, carbRangeStr, mealDetail, listMaxD,
      postprandialReadings, appendStep, optStep, round1, roundHalfEven,
      c4Data2, postprandial_threshold, postprandial_window, List.filter,
      List.foldl, List.filterMap, List.find?]

set_option maxRecDepth 8000 in
/-- C4 witness: the characterisation applied to the three-meal scenario. -/
theorem carb_ratio_rule_correct_witness : r3Count c4Data3 = 3 := by
  have hsome : detect_carb_ratio c4Data3 =
      some ⟨"carb_ratio_mismatch", "medium", 3,
        [.bucket ⟨"40-59g", 3, 3,
          [⟨0, 50, 5, 200, some 10⟩, ⟨300, 50, 5, 200, some 10⟩,
           ⟨600, 50, 5, 200, some 10⟩]⟩]⟩ := by
    norm_num [detect_carb_ratio, r3Step, group_similar_meals, addToGroup,
      findBolus, mkMeal, bucketLB, carbRangeStr, mealDetail, listMaxD,
      postprandialReadings, appendStep, optStep, round1, roundHalfEven,
      c4Data3, postprandial_threshold, postprandial_window, List.filter,
      List.foldl, List.filterMap, List.find?, Int.fract]
    rfl
  exact (carb_ratio_rule_correct.2.1 c4Data3 _ hsome).2.1.symm

set_option maxRecDepth 8000 in
/-- C4 counterexample to the claim as stated: three 50 g meals with 7-unit
boluses store an estimated ratio of 7.1 = 71/10 per meal, while the claim
asserts the exact quotient 50/7. -/
theorem carb_ratio_rounded_cex :
    detect_carb_ratio c4CxData =
      some ⟨"carb_ratio_mismatch", "medium", 3,
        [.bucket ⟨"40-59g", 3, 3,
          [⟨0, 50, 7, 200, some (71/10)⟩, ⟨300, 50, 7, 200, some (71/10)⟩,
           ⟨600, 50, 7, 200, some (71/10)⟩]⟩]⟩ ∧
    (71/10 : ℚ) ≠ 50/7 := by
  constructor
  · have hf : Int.fract ((500 : ℚ)/7) = 3/7 := by
      unfold Int.fract
      norm_num
    norm_num [detect_carb_ratio, r3Step, group_similar_meals, addToGroup,
      findBolus, mkMeal, bucketLB, carbRangeStr, mealDetail, listMaxD,
      postprandialReadings, appendStep, optStep, round1, roundHalfEven, hf,
      c4CxData, postprandial_threshold, postprandial_window, List.filter,
      List.foldl, List.filterMap, List.find?]
    rfl
  · norm_num

/-! ## The rule engine: isolation and ordering -/

theorem runRules_eq_filterMap
    (rules : List (String × (PatientData → Except String (Option AnalyticsResult))))
    (data : PatientData) :
    runRules rules data = rules.filterMap (fun rl =>
      match rl.2 data with
      | .ok (some f) => some f
      | .ok none => none
      | .error _ => none) := by
  induction rules with
  | nil => rfl
  | cons rl rest ih =>
    obtain ⟨nm, f⟩ := rl
    rw [List.filterMap_cons]
    show (match f data with
      | .ok (some r) => r :: runRules rest data
      | .ok none => runRules rest data
      | .error _ => runRules rest data) = _
    rcases hf : f data with e | o
    · simp [hf, ih]
    · rcases o with _ | r
      · simp [hf, ih]
      · simp [hf, ih]

theorem analyze_eq (data : PatientData) :
    analyze_patient_data data =
      [detect_postprandial data, detect_mistimed data,
        detect_carb_ratio data].filterMap id := by
  unfold analyze_patient_data engineRules
  rcases h1 : detect_postprandial data with _ | r1 <;>
    rcases h2 : detect_mistimed data with _ | r2 <;>
      rcases h3 : detect_carb_ratio data with _ | r3 <;>
        simp [runRules, h1, h2, h3]

theorem analyze_evidence_ne (data : PatientData) (res : AnalyticsResult)
    (hmem : res ∈ analyze_patient_data data) : res.evidence ≠ [] := by
  rw [analyze_eq, List.mem_filterMap] at hmem
  obtain ⟨o, ho, hres⟩ := hmem
  simp only [id_eq] at hres
  subst hres
  simp only [List.mem_cons, List.not_mem_nil, or_false] at ho
  rcases ho with h | h | h
  · obtain ⟨_, _, hpos, hlen, _⟩ := detect_postprandial_some data res h.symm
    intro hnil
    rw [hnil] at hlen
    simp only [List.length_nil] at hlen
    omega
  · obtain ⟨_, _, hpos, hlen, _⟩ := detect_mistimed_some data res h.symm
    intro hnil
    rw [hnil] at hlen
    simp only [List.length_nil] at hlen
    omega
  · obtain ⟨_, _, _, _, hlen⟩ := detect_carb_ratio_some data res h.symm
    have hne : ¬ (r3QualKeys data = ∅) := by
      intro hempty
      have := (detect_carb_ratio_none_iff data).mpr hempty
      rw [this] at h
      exact absurd h (by simp)
    have hcard : 0 < (r3QualKeys data).card :=
      Finset.card_pos.mpr (Finset.nonempty_iff_ne_empty.mpr hne)
    intro hnil
    rw [hnil] at hlen
    simp only [List.length_nil] at hlen
    omega

/-- C8: the engine loop returns, in registration order, exactly the
findings of the rules that succeed with a non-`None` result (the filterMap
characterisation); a rule that raises contributes nothing and does not
prevent the remaining rules from running (splicing an always-raising rule
into any position leaves the other rules' output unchanged); the registry
holds exactly the three rules in the fixed order postprandial_hyperglycemia,
mistimed_bolus, carb_ratio_mismatch; and no returned Finding ever has empty
evidence. -/
theorem engine_isolation_correct :
    (∀ (rules : List (String × (PatientData → Except String (Option AnalyticsResult))))
        (data : PatientData),
        runRules rules data = rules.filterMap (fun rl =>
          match rl.2 data with
          | .ok (some f) => some f
          | .ok none => none
          | .error _ => none)) ∧
    (∀ (rules1 rules2 : List (String × (PatientData → Except String (Option AnalyticsResult))))
        (name msg : String) (data : PatientData),
        runRules (rules1 ++ [(name, fun _ => Except.error msg)] ++ rules2)
            data =
          runRules rules1 data ++ runRules rules2 data) ∧
    engineRules.map Prod.fst =
      ["postprandial_hyperglycemia", "mistimed_bolus",
        "carb_ratio_mismatch"] ∧
    (∀ (data : PatientData) (res : AnalyticsResult),
        res ∈ analyze_patient_data data → res.evidence ≠ []) := by
  refine ⟨runRules_eq_filterMap, ?_, rfl, analyze_evidence_ne⟩
  intro rules1 rules2 name msg data
  rw [runRules_eq_filterMap, runRules_eq_filterMap, runRules_eq_filterMap,
    List.filterMap_append, List.filterMap_append]
  simp

/-- C8 witness: the engine applied to a concrete bundle; the finding it
returns has nonempty evidence, and an error rule spliced in the middle of
the registry changes nothing. -/
theorem engine_isolation_correct_witness :
    (AnalyticsResult.mk "postprandial_hyperglycemia" "high" 1
      [.postprandial 0 200 (some 60) 30]).evidence ≠ [] ∧
    runRules ([("postprandial_hyperglycemia",
        fun d => .ok (detect_postprandial d))] ++
      [("boom", fun _ => Except.error "boom")] ++
      [("carb_ratio_mismatch", fun d => .ok (detect_carb_ratio d))]) c8Data =
      runRules [("postprandial_hyperglycemia",
        fun d => .ok (detect_postprandial d))] c8Data ++
      runRules [("carb_ratio_mismatch",
        fun d => .ok (detect_carb_ratio d))] c8Data := by
  constructor
  · have hmem : (AnalyticsResult.mk "postprandial_hyperglycemia" "high" 1
        [.postprandial 0 200 (some 60) 30]) ∈ analyze_patient_data c8Data := by
      have : analyze_patient_data c8Data =
          [⟨"postprandial_hyperglycemia", "high", 1,
            [.postprandial 0 200 (some 60) 30]⟩] := by
        norm_num [analyze_patient_data, runRules, engineRules,
          detect_postprandial, detect_mistimed, detect_carb_ratio, r1Step,
          r2Step, r3Step, postprandialReadings, postBolusReadings,
          delayedBoluses, findBolus, group_similar_meals, addToGroup, mkMeal,
          listMaxD, appendStep, optStep, calculate_severity, find_peak_time,
          maxByGlucose, truncToInt, bucketLB, carbRangeStr, mealDetail,
          round1, roundHalfEven, c8Data, postprandial_threshold,
          postprandial_window, mistimed_bolus_threshold, mistimed_bolus_delay,
          List.filter, List.foldl, List.filterMap, List.find?]
      rw [this]
      exact List.mem_singleton.mpr rfl
    exact engine_isolation_correct.2.2.2 c8Data _ hmem
  · exact engine_isolation_correct.2.1
      [("postprandial_hyperglycemia", fun d => .ok (detect_postprandial d))]
      [("carb_ratio_mismatch", fun d => .ok (detect_carb_ratio d))]
      "boom" "boom" c8Data

/-! ## Degenerate input -/

theorem detect_postprandial_no_readings (data : PatientData)
    (h : data.glucose_readings = []) : detect_postprandial data = none := by
  rw [detect_postprandial_none_iff]
  unfold r1QualCount
  rw [List.countP_eq_zero]
  intro ce _
  simp [r1Qualifies, h]

theorem detect_mistimed_no_readings (data : PatientData)
    (h : data.glucose_readings = []) : detect_mistimed data = none := by
  rw [detect_mistimed_none_iff]
  unfold r2QualCount
  rw [List.sum_eq_zero_iff]
  intro x hx
  obtain ⟨ce, _, rfl⟩ := List.mem_map.mp hx
  rw [List.countP_eq_zero]
  intro b _
  simp [r2Qualifies, h]

theorem detect_carb_ratio_no_readings (data : PatientData)
    (h : data.glucose_readings = []) : detect_carb_ratio data = none := by
  rw [detect_carb_ratio_none_iff, Finset.eq_empty_iff_forall_not_mem]
  intro k hk
  rw [r3QualKeys, Finset.mem_filter] at hk
  obtain ⟨_, _, hprob⟩ := hk
  have hzero : r3ProbCount data k = 0 := by
    rw [r3ProbCount, List.countP_eq_zero]
    intro m hm
    rw [r3Meals] at hm
    obtain ⟨p, hp, rfl⟩ := List.mem_map.mp hm
    obtain ⟨hpA, _⟩ := List.mem_filter.mp hp
    rw [r3Assoc] at hpA
    obtain ⟨ce, _, hpe⟩ := List.mem_filterMap.mp hpA
    rcases hb : findBolus data.insulin_events ce.timestamp with _ | b
    · rw [hb] at hpe
      exact absurd hpe (by simp)
    · rw [hb] at hpe
      simp only [Option.map_some'] at hpe
      obtain rfl := Option.some_inj.mp hpe
      simp [mkMeal, h, postprandialReadings, listMaxD]
  omega

/-- C9: the quality gate is a total function of the input stream; on the
empty stream it returns exactly the score-0, UNRELIABLE, unusable verdict
with its single warning, and every bundle with no glucose readings yields
an empty Finding list from the engine (no rule can produce an occurrence
without readings). -/
theorem quality_gate_degenerate_correct :
    assess_data_quality [] =
      { quality_score := 0, reliability := "UNRELIABLE",
        warnings := ["No valid readings found"],
        data_span_hours := none, total_readings := none,
        usable_for_clinical_decisions := false } ∧
    (∀ data : PatientData, data.glucose_readings = [] →
        analyze_patient_data data = []) := by
  refine ⟨rfl, ?_⟩
  intro data h
  rw [analyze_eq, detect_postprandial_no_readings data h,
    detect_mistimed_no_readings data h,
    detect_carb_ratio_no_readings data h]
  rfl

/-- C9 witness: a bundle with carb and insulin events but no readings. -/
theorem quality_gate_degenerate_correct_witness :
    analyze_patient_data c9Data = [] :=
  quality_gate_degenerate_correct.2 c9Data rfl

/-! ## The quality gate: score formula, span and score range -/

theorem assess_eq_nonempty (readings : List SimpleReading)
    (h : readings ≠ []) :
    assess_data_quality readings =
      assess_nonempty readings.length (readings.map (·.glucose)) := by
  cases readings with
  | nil => exact absurd rfl h
  | cons r rs => rfl

/-- C5: for a nonempty stream the score is 100 minus 15 per issue clamped
to `[0, 100]`, the issues being span below 24 h, fewer than 288 readings,
and the below-40 / above-400 fractions each exceeding 5 percent; the tier
follows the claimed if-chain on score and span; and usability holds iff
the tier is HIGH or MODERATE and the span is at least 12 h. -/
theorem quality_verdict_formula (readings : List SimpleReading)
    (h : readings ≠ []) :
    (assess_data_quality readings).quality_score =
      max 0 (min 100 (100 - 15 * qIssues readings)) ∧
    (assess_data_quality readings).reliability =
      (if 80 ≤ (assess_data_quality readings).quality_score ∧
          24 ≤ qSpan readings then "HIGH"
       else if 60 ≤ (assess_data_quality readings).quality_score ∧
          12 ≤ qSpan readings then "MODERATE"
       else if 40 ≤ (assess_data_quality readings).quality_score then "LOW"
       else "UNRELIABLE") ∧
    ((assess_data_quality readings).usable_for_clinical_decisions = true ↔
      (((assess_data_quality readings).reliability = "HIGH" ∨
        (assess_data_quality readings).reliability = "MODERATE") ∧
        12 ≤ qSpan readings)) := by
  have hpos : (0:ℚ) < (readings.length : ℚ) := by
    cases readings with
    | nil => exact absurd rfl h
    | cons r rs =>
      have : 0 < (r :: rs).length := Nat.succ_pos rs.length
      exact_mod_cast this
  have e3 : ((readings.length : ℚ) * (5/100) <
      ((((readings.map (·.glucose)).filter
        (fun g => decide (g < 40))).length : ℚ))) ↔
      5/100 < qLowFrac readings := by
    rw [qLowFrac, lt_div_iff hpos, mul_comm]
  have e4 : ((readings.length : ℚ) * (5/100) <
      ((((readings.map (·.glucose)).filter
        (fun g => decide (400 < g))).length : ℚ))) ↔
      5/100 < qHighFrac readings := by
    rw [qHighFrac, lt_div_iff hpos, mul_comm]
  rw [assess_eq_nonempty readings h]
  dsimp only [assess_nonempty]
  refine ⟨?_, ?_, ?_⟩
  · have hsum :
        ((if (readings.length : ℚ) * 5 / 60 < 24 then (1:ℤ) else 0) +
         (if readings.length < 288 then 1 else 0) +
         (if (readings.length : ℚ) * (5/100) <
            ((((readings.map (·.glucose)).filter
              (fun g => decide (g < 40))).length : ℚ)) then 1 else 0) +
         (if (readings.length : ℚ) * (5/100) <
            ((((readings.map (·.glucose)).filter
              (fun g => decide (400 < g))).length : ℚ)) then 1 else 0)) =
        qIssues readings := by
      unfold qIssues qSpan
      rw [if_congr e3 rfl rfl, if_congr e4 rfl rfl]
    simp only [decide_eq_true_eq]
    rw [hsum]
  · simp only [decide_eq_true_eq]
    unfold qSpan
    rfl
  · simp only [Bool.and_eq_true, Bool.or_eq_true, beq_iff_eq,
      decide_eq_true_eq, qSpan]

/-- C5 witness: the formula applied to a one-reading stream. -/
theorem quality_verdict_formula_witness :
    (assess_data_quality c5Stream).quality_score =
      max 0 (min 100 (100 - 15 * qIssues c5Stream)) :=
  (quality_verdict_formula c5Stream (by simp [c5Stream])).1

/-- C6 counterexample to the claim as stated: a stream of two readings
whose timestamps are present and 48 hours apart still gets the cadence
estimate 2 * 5 / 60 hours (stored rounded as 0.2), not the 48 hours of the
timestamp range the claim says is used when available. -/
theorem span_ignores_timestamps_cex :
    (assess_data_quality c6Stream).data_span_hours = some (1/5) ∧
    dataSpanHoursSpec c6Stream = 48 ∧ ((1/5 : ℚ) ≠ 48) := by
  refine ⟨?_, ?_, by norm_num⟩
  · have hf : Int.fract ((5 : ℚ)/3) = 2/3 := by
      unfold Int.fract
      norm_num
    show (assess_nonempty c6Stream.length
      (c6Stream.map (·.glucose))).data_span_hours = some (1/5)
    norm_num [assess_nonempty, c6Stream, round1, roundHalfEven, hf]
  · norm_num [dataSpanHoursSpec, c6Stream, List.filterMap, List.foldl]

/-- C6 (amended): the data-span in hours is always the assumed 5-minute
cadence times the reading count (stored rounded to one decimal); the
timestamp range is never consulted - the whole verdict is invariant under
any change of the timestamps that keeps the glucose values. -/
theorem span_always_cadence (readings : List SimpleReading)
    (h : readings ≠ []) :
    (assess_data_quality readings).data_span_hours =
      some (round1 ((readings.length : ℚ) * 5 / 60)) ∧
    ∀ readings2 : List SimpleReading,
      readings2.map (·.glucose) = readings.map (·.glucose) →
      assess_data_quality readings2 = assess_data_quality readings := by
  constructor
  · rw [assess_eq_nonempty readings h]
    rfl
  · intro r2 hm
    have hlen : r2.length = readings.length := by
      rw [← List.length_map r2 (·.glucose), hm, List.length_map]
    have h2ne : r2 ≠ [] := by
      intro hnil
      rw [hnil] at hlen
      cases readings with
      | nil => exact h rfl
      | cons a l => simp at hlen
    rw [assess_eq_nonempty readings h, assess_eq_nonempty r2 h2ne, hlen, hm]

/-- C6 witness: the cadence formula and timestamp-invariance applied to
the concrete 48-hour-range stream and its timestamp-free variant. -/
theorem span_always_cadence_witness :
    (assess_data_quality c6Stream).data_span_hours =
      some (round1 ((c6Stream.length : ℚ) * 5 / 60)) ∧
    assess_data_quality c6StreamNoTs = assess_data_quality c6Stream := by
  have h := span_always_cadence c6Stream (by simp [c6Stream])
  exact ⟨h.1, h.2 c6StreamNoTs (by simp [c6Stream, c6StreamNoTs])⟩

theorem assess_nonempty_score_mem (total : ℕ) (gv : List ℚ) :
    (assess_nonempty total gv).quality_score ∈
      ([40, 55, 70, 85, 100] : List ℤ) ∧
    (assess_nonempty total gv).reliability ≠ "UNRELIABLE" := by
  dsimp only [assess_nonempty]
  generalize (decide ((total : ℚ) * 5 / 60 < 24)) = b1
  generalize (decide (total < 288)) = b2
  generalize (decide ((total : ℚ) * (5/100) <
    ((gv.filter (fun g => decide (g < 40))).length : ℚ))) = b3
  generalize (decide ((total : ℚ) * (5/100) <
    ((gv.filter (fun g => decide (400 < g))).length : ℚ))) = b4
  constructor
  · cases b1 <;> cases b2 <;> cases b3 <;> cases b4 <;> decide
  · have h40 : (40:ℤ) ≤ max 0 (min 100 (100 - 15 *
        ((if b1 = true then (1:ℤ) else 0) + (if b2 = true then 1 else 0) +
         (if b3 = true then 1 else 0) + (if b4 = true then 1 else 0)))) := by
      cases b1 <;> cases b2 <;> cases b3 <;> cases b4 <;> decide
    revert h40
    generalize (max 0 (min 100 (100 - 15 *
        ((if b1 = true then (1:ℤ) else 0) + (if b2 = true then 1 else 0) +
         (if b3 = true then 1 else 0) + (if b4 = true then 1 else 0)))) :
        ℤ) = s
    intro h40
    split_ifs <;> first
      | decide
      | exact absurd h40 (by assumption)

/-- C10: for every nonempty stream the score lands in
{40, 55, 70, 85, 100} (at most four issues fire, so the clamp never binds
below 40) and the tier is never UNRELIABLE; UNRELIABLE is reachable only
through the empty-stream branch. -/
theorem quality_score_range_correct :
    (∀ readings : List SimpleReading, readings ≠ [] →
      (assess_data_quality readings).quality_score ∈
        ([40, 55, 70, 85, 100] : List ℤ) ∧
      (assess_data_quality readings).reliability ≠ "UNRELIABLE") ∧
    (assess_data_quality []).reliability = "UNRELIABLE" := by
  refine ⟨?_, rfl⟩
  intro readings h
  rw [assess_eq_nonempty readings h]
  exact assess_nonempty_score_mem _ _

/-- C10 witness: the range fact at a concrete one-reading stream. -/
theorem quality_score_range_correct_witness :
    (assess_data_quality c5Stream).quality_score ∈
      ([40, 55, 70, 85, 100] : List ℤ) :=
  (quality_score_range_correct.1 c5Stream (by simp [c5Stream])).1

/-! ## MAGE: the excursion loop versus the consecutive deltas -/

theorem mageExcursions_cons3 (v a b c : ℚ) (rest : List ℚ) :
    mageExcursions (a :: b :: c :: rest) v =
      (if v < (b - a) ^ 2 then [|b - a|] else []) ++
        mageExcursions (b :: c :: rest) v := by
  unfold mageExcursions
  have hlen : (a :: b :: c :: rest).length - 2 = rest.length + 1 := by
    simp only [List.length_cons]
    omega
  have hlen2 : (b :: c :: rest).length - 2 = rest.length := by
    simp only [List.length_cons]
    omega
  rw [hlen, hlen2, List.range'_succ, List.filterMap_cons]
  have hf1 : (match (a :: b :: c :: rest).get? 1,
      (a :: b :: c :: rest).get? (1 - 1) with
      | some x, some y => if v < (x - y) ^ 2 then some |x - y| else none
      | _, _ => none) =
      if v < (b - a) ^ 2 then some |b - a| else none := rfl
  rw [hf1]
  have htail : List.filterMap (fun i =>
      match (a :: b :: c :: rest).get? i,
        (a :: b :: c :: rest).get? (i - 1) with
      | some x, some y => if v < (x - y) ^ 2 then some |x - y| else none
      | _, _ => none) (List.range' (1 + 1) rest.length) =
    List.filterMap (fun i =>
      match (b :: c :: rest).get? i, (b :: c :: rest).get? (i - 1) with
      | some x, some y => if v < (x - y) ^ 2 then some |x - y| else none
      | _, _ => none) (List.range' 1 rest.length) := by
    rw [← List.map_add_range' 1 1 rest.length 1, List.filterMap_map]
    apply List.filterMap_congr
    intro i hi
    have h1i : 1 ≤ i := by
      rw [List.mem_range'] at hi
      obtain ⟨j, _, rfl⟩ := hi
      omega
    obtain ⟨j, rfl⟩ := Nat.exists_eq_add_of_le h1i
    have e1 : (a :: b :: c :: rest).get? (1 + (1 + j)) =
        (b :: c :: rest).get? (1 + j) := by
      rw [Nat.add_comm 1 (1 + j)]
      exact List.get?_cons_succ
    have e2 : (a :: b :: c :: rest).get? (1 + (1 + j) - 1) =
        (b :: c :: rest).get? (1 + j - 1) := by
      have g1 : 1 + (1 + j) - 1 = j + 1 := by omega
      have g2 : 1 + j - 1 = j := by omega
      rw [g1, g2]
      exact List.get?_cons_succ
    show (match (a :: b :: c :: rest).get? (1 + (1 + j)),
        (a :: b :: c :: rest).get? (1 + (1 + j) - 1) with
      | some x, some y => if v < (x - y) ^ 2 then some |x - y| else none
      | _, _ => none) = _
    rw [e1, e2]
  by_cases hc : v < (b - a) ^ 2
  · rw [if_pos hc, if_pos hc]
    show |b - a| :: _ = _
    rw [htail]
    rfl
  · rw [if_neg hc, if_neg hc]
    show List.filterMap _ (List.range' (1 + 1) rest.length) = _
    rw [htail]
    rfl

theorem mageExcursions_eq (v : ℚ) :
    ∀ l : List ℚ, mageExcursions l v =
      ((consecutiveDeltas l).dropLast).filter (fun d => decide (v < d ^ 2))
  | [] => rfl
  | [_] => rfl
  | [_, _] => rfl
  | a :: b :: c :: rest => by
    rw [mageExcursions_cons3, mageExcursions_eq v (b :: c :: rest)]
    have hd : consecutiveDeltas (a :: b :: c :: rest) =
        |b - a| :: consecutiveDeltas (b :: c :: rest) := rfl
    have hd2 : consecutiveDeltas (b :: c :: rest) =
        |c - b| :: consecutiveDeltas (c :: rest) := rfl
    rw [hd, hd2, List.dropLast_cons₂, List.filter_cons, ← hd2]
    by_cases hc : v < (b - a) ^ 2
    · rw [if_pos hc, if_pos (by simp [sq_abs, hc])]
      rfl
    · rw [if_neg hc, if_neg (by simp [sq_abs, hc])]
      rfl

/-- C7 (amended): for every sequence of at least 2 values the metrics
record exists and its stored MAGE is the one-decimal rounding of the mean
of those absolute consecutive deltas at loop positions `1..n-2` - that is,
EXCLUDING the delta between the last two values (`range(1, len - 1)`) -
that exceed one sample standard deviation (encoded squared), 0 when none
qualify; for the sequence [70, 70, 70, 70] the sample variance is 0, so
CV = 0 (its carried square is 0) and MAGE = 0. -/
theorem mage_correct :
    (∀ l : List ℚ, 2 ≤ l.length →
      ∃ m : AdvancedMetrics, calculate_advanced_metrics l = some m ∧
        m.mage = round1 (
          let exc := ((consecutiveDeltas l).dropLast).filter
            (fun d => decide (sampleVariance l < d ^ 2))
          if exc.isEmpty then 0 else exc.sum / (exc.length : ℚ))) ∧
    sampleVariance [70, 70, 70, 70] = 0 ∧
    (calculate_advanced_metrics [70, 70, 70, 70]).map (·.mage) = some 0 ∧
    (calculate_advanced_metrics [70, 70, 70, 70]).map (·.cv_sq) = some 0 := by
  refine ⟨?_, ?_, ?_, ?_⟩
  · intro l hl
    unfold calculate_advanced_metrics
    rw [if_neg (Nat.not_lt.mpr hl)]
    refine ⟨_, rfl, ?_⟩
    show round1 (mageRaw l) = _
    unfold mageRaw
    rw [mageExcursions_eq]
  · norm_num [sampleVariance, listMean, List.sum_cons, List.sum_nil]
  · norm_num [calculate_advanced_metrics, mageRaw, mageExcursions,
      sampleVariance, listMean, round1, roundHalfEven, List.range',
      List.sum_cons, List.sum_nil, List.get?, List.filterMap]
  · norm_num [calculate_advanced_metrics, sampleVariance, listMean,
      List.sum_cons, List.sum_nil]

/-- C7 witness: the characterisation applied to [70, 80, 100, 90], whose
qualifying excursions are exactly [20]. -/
theorem mage_correct_witness :
    ∃ m : AdvancedMetrics, calculate_advanced_metrics c7List = some m ∧
      m.mage = 20 := by
  obtain ⟨m, hm, hmage⟩ := mage_correct.1 c7List (by norm_num [c7List])
  refine ⟨m, hm, ?_⟩
  rw [hmage]
  have hf : Int.fract ((200 : ℚ)) = 0 := by
    unfold Int.fract
    norm_num
  norm_num [c7List, consecutiveDeltas, sampleVariance, listMean, round1,
    roundHalfEven, hf, List.zipWith, List.filter, List.dropLast,
    List.sum_cons, List.sum_nil]

/-- C7 counterexample to the claim as stated: for [70, 200] the only
consecutive delta, 130, exceeds the sample standard deviation (130^2 =
16900 > 8450), so the claimed MAGE is 130; the code's loop
`range(1, len - 1)` never considers that delta and yields 0. -/
theorem mage_skips_last_delta_cex :
    (calculate_advanced_metrics [70, 200]).map (·.mage) = some 0 ∧
    mageSpecClaim [70, 200] = 130 ∧ ((0:ℚ) ≠ 130) := by
  refine ⟨?_, ?_, by norm_num⟩
  · norm_num [calculate_advanced_metrics, mageRaw, mageExcursions,
      sampleVariance, listMean, round1, roundHalfEven, List.range',
      List.sum_cons, List.sum_nil]
  · norm_num [mageSpecClaim, consecutiveDeltas, sampleVariance, listMean,
      List.zipWith, List.filter, List.sum_cons, List.sum_nil]
